import Mathlib

/-! PcscAddon: a shallow embedding of `src/pcsc.cc`.

The development follows the non-Windows build of the add-on (the `#else`
branches of the source).  The reader-access library (PC/SC) is an external
collaborator: every call into it is represented by the value it returns,
passed to the embedded function as an argument.  Calls whose order matters
(connect, disconnect, cancel, join, callback delivery, channel release) are
recorded, in program order, in an event trace.  Console logging is omitted.
-/

namespace PcscAddon

/-! ## Types and constants of the reader-access library -/

/-- The byte type `SCardByte` (`unsigned char`). -/
abbrev SCardByte := Fin 256

/-- Status `SCARD_S_SUCCESS` of `pcsclite.h`. -/
def SCARD_S_SUCCESS : Int := 0
/-- Status `SCARD_E_CANCELLED` of `pcsclite.h`. -/
def SCARD_E_CANCELLED : Int := 0x80100002
/-- Status `SCARD_E_INVALID_HANDLE` of `pcsclite.h`. -/
def SCARD_E_INVALID_HANDLE : Int := 0x80100003
/-- Status `SCARD_E_NO_MEMORY` of `pcsclite.h`. -/
def SCARD_E_NO_MEMORY : Int := 0x80100006
/-- Status `SCARD_E_UNKNOWN_READER` of `pcsclite.h`. -/
def SCARD_E_UNKNOWN_READER : Int := 0x80100009
/-- Status `SCARD_E_TIMEOUT` of `pcsclite.h`. -/
def SCARD_E_TIMEOUT : Int := 0x8010000A
/-- Status `SCARD_E_PROTO_MISMATCH` of `pcsclite.h`. -/
def SCARD_E_PROTO_MISMATCH : Int := 0x8010000F
/-- Status `SCARD_E_READER_UNAVAILABLE` of `pcsclite.h`. -/
def SCARD_E_READER_UNAVAILABLE : Int := 0x80100017
/-- Status `SCARD_E_NO_SERVICE` of `pcsclite.h`. -/
def SCARD_E_NO_SERVICE : Int := 0x8010001D
/-- Status `SCARD_E_NO_READERS_AVAILABLE` of `pcsclite.h`. -/
def SCARD_E_NO_READERS_AVAILABLE : Int := 0x8010002E
/-- Status `SCARD_E_COMM_DATA_LOST` of `pcsclite.h`. -/
def SCARD_E_COMM_DATA_LOST : Int := 0x8010002F

/-- Reader state `SCARD_STATE_UNAWARE`. -/
def SCARD_STATE_UNAWARE : Nat := 0x0000
/-- Reader state bit `SCARD_STATE_CHANGED`. -/
def SCARD_STATE_CHANGED : Nat := 0x0002
/-- Reader state bit `SCARD_STATE_EMPTY`. -/
def SCARD_STATE_EMPTY : Nat := 0x0010
/-- Reader state bit `SCARD_STATE_PRESENT`. -/
def SCARD_STATE_PRESENT : Nat := 0x0020
/-- Reader state bit `SCARD_STATE_MUTE`. -/
def SCARD_STATE_MUTE : Nat := 0x0200

/-- Protocol identifier `SCARD_PROTOCOL_T0`. -/
def SCARD_PROTOCOL_T0 : Nat := 0x0001
/-- Protocol identifier `SCARD_PROTOCOL_T1`. -/
def SCARD_PROTOCOL_T1 : Nat := 0x0002
/-- Disposition `SCARD_LEAVE_CARD`. -/
def SCARD_LEAVE_CARD : Nat := 0x0000

/-- The C test `x & mask` used as a condition. -/
def testBit (x mask : Nat) : Bool := Nat.land x mask != 0

/-! ## Stream formatting (`std::hex`, `std::uppercase`, `std::setw`, `std::setfill`) -/

/-- One uppercase hexadecimal digit. -/
def hexDigitUpper (d : Nat) : Char := "0123456789ABCDEF".toList.getD d '0'

/-- Digits of `n` in base 16, most significant first, accumulated in `acc`. -/
def hexUpperAux : Nat → Nat → List Char → List Char
  | 0, _, acc => acc
  | fuel + 1, n, acc =>
    if n / 16 = 0 then hexDigitUpper (n % 16) :: acc
    else hexUpperAux fuel (n / 16) (hexDigitUpper (n % 16) :: acc)

/-- What `stream << std::hex << std::uppercase << n` writes for an unsigned
value `n`: its uppercase hexadecimal digits without leading zeros. -/
def hexUpper (n : Nat) : List Char := hexUpperAux (n + 1) n []

/-- Field padding of `std::setw(w)` with `std::setfill(fill)`: a rendering
shorter than `w` is padded on the left. -/
def setwFill (w : Nat) (fill : Char) (cs : List Char) : List Char :=
  List.replicate (w - cs.length) fill ++ cs

/-- Output of `stream << std::hex << std::uppercase << rv` for `SCardLong rv`
(`long`, 64 bits on the non-Windows targets): hexadecimal output of a signed
value writes its two's-complement bit pattern. -/
def hexUpperLong (rv : Int) : String := String.mk (hexUpper (rv % 2 ^ 64).toNat)

/-! ## Error helpers -/

/-- Removal of trailing carriage returns and line feeds
(the `while (... result.pop_back())` loop), on the reversed characters. -/
def dropLineEnds : List Char → List Char
  | [] => []
  | c :: cs => if c = '\r' ∨ c = '\n' then dropLineEnds cs else c :: cs

/-- The function `SCardErrorToString`.  `sysMsg` is the text `FormatMessageA` produced in
the Windows build (`none` when it produced nothing); the non-Windows build has
no such source and corresponds to `none`. -/
def SCardErrorToString (sysMsg : Option String) (rv : Int) : String :=
  match sysMsg with
  | some m =>
    if m.length > 0 then
      String.mk (dropLineEnds m.toList.reverse).reverse ++ " (0x" ++ hexUpperLong rv ++ ")"
    else "PC/SC Error Code: 0x" ++ hexUpperLong rv
  | none => "PC/SC Error Code: 0x" ++ hexUpperLong rv

/-- The message `ThrowNapiError` throws. -/
def ThrowNapiError (message : String) (rv : Int) : String :=
  if rv ≠ 0 then message ++ " (" ++ SCardErrorToString none rv ++ ")" else message

/-! ## UID formatting of the polling loop -/

/-- The loop `for (i = 0; i < m; i++) uidStream << std::setw(2) << (int)recvBufferVec[i]`
with `std::hex`, `std::uppercase` and `std::setfill('0')` in force: the
characters written to `uidStream` after `m` iterations. -/
def uidStream (recvBufferVec : List SCardByte) : Nat → List Char
  | 0 => []
  | m + 1 =>
    uidStream recvBufferVec m ++ setwFill 2 '0' (hexUpper (recvBufferVec.getD m 0).val)

/-! ## Global state of the add-on -/

/-- A `Napi::ThreadSafeFunction` handle; `0` is the empty handle, for which
`operator bool` is false. -/
abbrev Tsfn := Nat

/-- The record `ListenerInfo`. -/
structure ListenerInfo where
  readerName : String
  uidCallback : Tsfn
  errorCallback : Tsfn
  deriving DecidableEq, Repr

/-- The framing descriptors `SCARD_PCI_T0` and `SCARD_PCI_T1`. -/
inductive Pci where
  | T0
  | T1
  deriving DecidableEq, Repr

/-- Calls whose occurrence and order are observable, in program order. -/
inductive Event where
  | establishContext (rv : Int)
  | cancel (hContext : Nat)
  | join
  | getStatusChange (hContext : Nat) (reader : String)
  | connect (hContext : Nat) (reader : String) (rv : Int) (hCard : Nat)
  | transmit (hCard : Nat) (pci : Pci) (apdu : List SCardByte)
  | disconnect (hCard : Nat) (disposition : Nat)
  | uidCallback (tsfn : Tsfn) (uid : String)
  | errorCallback (tsfn : Tsfn) (msg : String)
  | release (tsfn : Tsfn)
  | abort (tsfn : Tsfn)
  | sleep (ms : Nat)
  deriving DecidableEq, Repr

/-- The fields of `SCARD_READERSTATE` the loop reads and writes
(`szReader` is the listener's reader name throughout). -/
structure ReaderState where
  dwCurrentState : Nat
  dwEventState : Nat
  deriving DecidableEq, Repr

/-- Where the thread running `PollForCard` stands.  The thread reads the
shared flag `g_running` at the loop head and right after the wait; these are
the points at which the other thread can be interleaved. -/
inductive PollPc where
  /-- thread created, body of `PollForCard` not begun -/
  | entry
  /-- about to evaluate `while (g_running.load())` -/
  | loopHead (listener : ListenerInfo) (readerState : ReaderState)
  /-- blocked in `SCardGetStatusChange` -/
  | waiting (listener : ListenerInfo) (readerState : ReaderState)
  /-- past `if (!g_running.load()) break;`, about to classify `rv` -/
  | classify (listener : ListenerInfo) (readerState : ReaderState) (rv : Int)
  deriving DecidableEq, Repr

/-- The `std::thread g_pollThread`: not joinable (default-constructed or
joined), running, or returned from `PollForCard` but not yet joined. -/
inductive PollThread where
  | notJoinable
  | running (pc : PollPc)
  | finished
  deriving DecidableEq, Repr

/-- The globals of the add-on together with the event trace. -/
structure World where
  g_running : Bool
  g_context : Nat
  g_pollThread : PollThread
  g_activeListener : Option ListenerInfo
  trace : List Event
  deriving DecidableEq, Repr

/-- Outcome of an exported function: the value it returns, or the JavaScript
exception it leaves pending. -/
inductive JsResult (α : Type) where
  | value (a : α)
  | throws (msg : String)
  deriving DecidableEq, Repr

/-! ## Values returned by the reader-access library -/

/-- Result of `SCardEstablishContext`: status and the handle written. -/
structure EstablishResult where
  rv : Int
  hContext : Nat
  deriving DecidableEq, Repr

/-- Result of `SCardGetStatusChange`: status and the event state in
`readerState` after the call. -/
structure WaitResult where
  rv : Int
  dwEventState : Nat
  deriving DecidableEq, Repr

/-- Result of `SCardConnect`: status, card handle and active protocol. -/
structure ConnectResult where
  rv : Int
  hCard : Nat
  dwActiveProtocol : Nat
  deriving DecidableEq, Repr

/-- Result of `SCardTransmit`: status, the received length stored through
`pcbRecvLength`, and the bytes written to the start of the receive buffer. -/
structure TransmitResult where
  rv : Int
  recvLength : Nat
  written : List SCardByte
  deriving DecidableEq, Repr

/-- What the library returns to one pass of the polling loop. -/
structure PollInput where
  wait : WaitResult
  connect : ConnectResult
  transmit : TransmitResult
  deriving DecidableEq, Repr

/-! ## Context management -/

/-- The function `EnsureContext`.  `withEnv` tells whether an environment was passed (then a
failure also throws).  Returns the new state, the boolean result and the
message thrown, if any. -/
def EnsureContext (withEnv : Bool) (est : EstablishResult) (s : World) :
    World × Bool × Option String :=
  if s.g_context ≠ 0 then (s, true, none)
  else
    let s1 := { s with g_context := est.hContext,
                       trace := s.trace ++ [Event.establishContext est.rv] }
    if est.rv ≠ SCARD_S_SUCCESS then
      ({ s1 with g_context := 0 }, false,
        if withEnv then some (ThrowNapiError "Failed to establish PC/SC context" est.rv)
        else none)
    else (s1, true, none)

/-- The function `GetPci`; `none` stands for a null pointer. -/
def GetPci (protocol : Nat) : Option Pci :=
  if protocol = SCARD_PROTOCOL_T0 then some Pci.T0
  else if protocol = SCARD_PROTOCOL_T1 then some Pci.T1
  else some Pci.T1

/-- A `std::vector<SCardByte>` of `n` zero bytes. -/
def zeroBuffer (n : Nat) : List SCardByte := List.replicate n 0

/-- The receive buffer after the library wrote `written` at its start. -/
def fillBuffer (buf written : List SCardByte) : List SCardByte :=
  written.take buf.length ++ buf.drop written.length

/-- The call `std::vector::resize(n)`: truncation, or extension by zero bytes. -/
def vecResize (v : List SCardByte) (n : Nat) : List SCardByte :=
  v.take n ++ List.replicate (n - v.length) 0

/-! ## The polling thread (`PollForCard`) -/

/-- The command `cmd_get_uid`. -/
def cmd_get_uid : List SCardByte := [0xFF, 0xCA, 0x00, 0x00, 0x00]

/-- The block run once a card is present and not mute (connect, read the UID,
report, disconnect).  Returns whether `readerState.dwCurrentState` is reset to
the unaware state, and the calls made. -/
def readCard (hContext : Nat) (listener : ListenerInfo) (c : ConnectResult)
    (t : TransmitResult) : Bool × List Event :=
  let evConnect := Event.connect hContext listener.readerName c.rv c.hCard
  if c.rv = SCARD_S_SUCCESS then
    let recvBufferVec := zeroBuffer 260
    -- `rv`, `recvLength`, buffer contents and calls made by the PCI block
    let r : Int × Nat × List SCardByte × List Event :=
      match GetPci c.dwActiveProtocol with
      | none => (SCARD_E_PROTO_MISMATCH, 260, recvBufferVec, [])
      | some pci =>
        (t.rv, t.recvLength, fillBuffer recvBufferVec t.written,
          [Event.transmit c.hCard pci cmd_get_uid])
    let rv := r.1
    let recvLength := r.2.1
    let buf := r.2.2.1
    if rv = SCARD_S_SUCCESS ∧ recvLength ≥ 2 then
      -- `recvLength - 2` does not wrap: `recvLength ≥ 2` on this branch
      (true, [evConnect] ++ r.2.2.2 ++
        [Event.uidCallback listener.uidCallback (String.mk (uidStream buf (recvLength - 2))),
         Event.sleep 1500,
         Event.disconnect c.hCard SCARD_LEAVE_CARD])
    else if rv ≠ SCARD_S_SUCCESS then
      (false, [evConnect] ++ r.2.2.2 ++
        [Event.errorCallback listener.errorCallback
           ("Error: Failed to read UID from card. " ++ SCardErrorToString none rv),
         Event.disconnect c.hCard SCARD_LEAVE_CARD])
    else
      (false, [evConnect] ++ r.2.2.2 ++ [Event.disconnect c.hCard SCARD_LEAVE_CARD])
  else
    (false, [evConnect,
      Event.errorCallback listener.errorCallback
        ("Error: Failed to connect to card. " ++ SCardErrorToString none c.rv),
      Event.sleep 500])

/-- The block `if (readerState.dwEventState & SCARD_STATE_CHANGED) ...` at
the end of the loop body: new reader state and the calls made. -/
def handleStateChange (hContext : Nat) (listener : ListenerInfo) (rs : ReaderState)
    (c : ConnectResult) (t : TransmitResult) : ReaderState × List Event :=
  if testBit rs.dwEventState SCARD_STATE_CHANGED then
    let rs1 : ReaderState := { rs with dwCurrentState := rs.dwEventState }
    if testBit rs.dwEventState SCARD_STATE_PRESENT && !testBit rs.dwEventState SCARD_STATE_MUTE then
      let r := readCard hContext listener c t
      (if r.1 then { rs1 with dwCurrentState := SCARD_STATE_UNAWARE } else rs1, r.2)
    else (rs1, [])
  else (rs, [])

/-- The code after the loop: both channels of the thread's own copy are
released, and `PollForCard` returns. -/
def exitLoop (listener : ListenerInfo) (s : World) : World :=
  { s with
    g_pollThread := PollThread.finished,
    trace := s.trace
      ++ (if listener.uidCallback ≠ 0 then [Event.release listener.uidCallback] else [])
      ++ (if listener.errorCallback ≠ 0 then [Event.release listener.errorCallback] else []) }

/-- The `if / else if` chain on the status of the wait, and the rest of the
loop body. -/
def classifyStep (inp : PollInput) (listener : ListenerInfo) (rs : ReaderState) (rv : Int)
    (s : World) : World :=
  if rv = SCARD_E_CANCELLED then exitLoop listener s
  else if rv = SCARD_E_TIMEOUT then
    { s with g_pollThread := PollThread.running (PollPc.loopHead listener rs) }
  else if rv = SCARD_E_UNKNOWN_READER ∨ rv = SCARD_E_READER_UNAVAILABLE
      ∨ rv = SCARD_E_COMM_DATA_LOST ∨ rv = SCARD_E_NO_SERVICE then
    exitLoop listener
      { s with
        g_running := false,
        trace := s.trace ++ [Event.errorCallback listener.errorCallback
          ("Error: Reader '" ++ listener.readerName
            ++ "' unavailable or PC/SC service stopped. " ++ SCardErrorToString none rv)] }
  else if rv = SCARD_E_INVALID_HANDLE then
    exitLoop listener
      { s with
        g_running := false,
        trace := s.trace ++ [Event.errorCallback listener.errorCallback
          "Critical Error: PC/SC context became invalid. Restart might be required."] }
  else if rv ≠ SCARD_S_SUCCESS then
    { s with
      g_pollThread := PollThread.running (PollPc.loopHead listener rs),
      trace := s.trace ++ [Event.sleep 500] }
  else
    let r := handleStateChange s.g_context listener rs inp.connect inp.transmit
    { s with
      g_pollThread := PollThread.running (PollPc.loopHead listener r.1),
      trace := s.trace ++ r.2 }

/-- One step of the thread running `PollForCard`, from one read of the shared
flag to the next; the identity when the thread is not running. -/
def pollStep (inp : PollInput) (s : World) : World :=
  match s.g_pollThread with
  | PollThread.running PollPc.entry =>
    match s.g_activeListener with
    | none => { s with g_pollThread := PollThread.finished }
    | some al =>
      if al.uidCallback = 0 ∨ al.errorCallback = 0 then
        { s with g_pollThread := PollThread.finished }
      else
        { s with
          g_pollThread := PollThread.running
            (PollPc.loopHead ⟨al.readerName, al.uidCallback, al.errorCallback⟩
              ⟨SCARD_STATE_UNAWARE, 0⟩) }
  | PollThread.running (PollPc.loopHead listener rs) =>
    if s.g_running then
      { s with
        g_pollThread := PollThread.running (PollPc.waiting listener rs),
        trace := s.trace ++ [Event.getStatusChange s.g_context listener.readerName] }
    else exitLoop listener s
  | PollThread.running (PollPc.waiting listener rs) =>
    if !s.g_running then exitLoop listener s
    else
      { s with
        g_pollThread := PollThread.running
          (PollPc.classify listener { rs with dwEventState := inp.wait.dwEventState }
            inp.wait.rv) }
  | PollThread.running (PollPc.classify listener rs rv) => classifyStep inp listener rs rv s
  | PollThread.notJoinable => s
  | PollThread.finished => s

/-- The thread run on its own for at most `fuel` steps, stopping when it has
returned from `PollForCard`. -/
def runPollThread : Nat → PollInput → World → World
  | 0, _, s => s
  | fuel + 1, inp, s =>
    match s.g_pollThread with
    | PollThread.running _ => runPollThread fuel inp (pollStep inp s)
    | _ => s

/-- The call `g_pollThread.join()` on a joinable thread: the caller waits
until the thread has returned.  The source joins only after `g_running` was
seen or set false, and then three steps are enough (`joinPollThread_joined`). -/
def joinPollThread (inp : PollInput) (s : World) : World :=
  let s1 := runPollThread 3 inp s
  match s1.g_pollThread with
  | PollThread.finished =>
    { s1 with g_pollThread := PollThread.notJoinable, trace := s1.trace ++ [Event.join] }
  | _ => s1

/-! ## Exported functions: `startListening`, `stopListening` -/

/-- The JavaScript values distinguished by the argument checks. -/
inductive JsValue where
  | str (s : String)
  | func (id : Nat)
  | buffer (bytes : List SCardByte)
  | other
  deriving DecidableEq, Repr

/-- What the surroundings return to one call of `StartListening`: the result of
`SCardEstablishContext`, the two handles made by `ThreadSafeFunction::New`
(`0` when creation failed), the `what()` of the `std::system_error` thrown by the
thread constructor (`none` when the thread was created), and the values the
library returns to the old thread while it is joined. -/
structure StartEnv where
  establish : EstablishResult
  tsfnUid : Tsfn
  tsfnError : Tsfn
  spawnError : Option String
  join : PollInput
  deriving DecidableEq, Repr

/-- The function `StartListening`. -/
def StartListening (info : List JsValue) (env : StartEnv) (s : World) :
    World × JsResult Unit :=
  match info.get? 0, info.get? 1, info.get? 2 with
  | some (JsValue.str readerName), some (JsValue.func _), some (JsValue.func _) =>
    let e := EnsureContext true env.establish s
    if !e.2.1 then (e.1, JsResult.throws (e.2.2.getD ""))
    else if e.1.g_running then
      (e.1, JsResult.throws "Listener is already active. Call stopListening first.")
    else
      let s1 :=
        match e.1.g_pollThread with
        | PollThread.notJoinable => e.1
        | _ => joinPollThread env.join e.1
      if env.tsfnUid = 0 ∨ env.tsfnError = 0 then
        ({ s1 with
           trace := s1.trace
             ++ (if env.tsfnUid ≠ 0 then [Event.release env.tsfnUid] else [])
             ++ (if env.tsfnError ≠ 0 then [Event.release env.tsfnError] else []) },
          JsResult.throws "Failed to create ThreadSafeFunctions.")
      else
        let s2 : World :=
          { s1 with
            g_activeListener := some ⟨readerName, env.tsfnUid, env.tsfnError⟩,
            g_running := true }
        match env.spawnError with
        | none => ({ s2 with g_pollThread := PollThread.running PollPc.entry }, JsResult.value ())
        | some what =>
          ({ s2 with
             g_running := false,
             g_activeListener := none,
             trace := s2.trace ++ [Event.abort env.tsfnUid, Event.abort env.tsfnError] },
            JsResult.throws (ThrowNapiError ("Failed to start listener thread: " ++ what) 0))
  | _, _, _ =>
    (s, JsResult.throws
      "Parameters expected: readerName (string), onUid (function), onError (function)")

/-- The function `StopListening`.  `join` holds the values the library returns
to the polling thread while the caller waits for it. -/
def StopListening (join : PollInput) (s : World) : World × JsResult Unit :=
  if !s.g_running then (s, JsResult.value ())
  else
    let s1 : World := { s with g_running := false }
    let s2 : World :=
      if s1.g_context ≠ 0 then { s1 with trace := s1.trace ++ [Event.cancel s1.g_context] }
      else s1
    let s3 :=
      match s2.g_pollThread with
      | PollThread.notJoinable => s2
      | _ => joinPollThread join s2
    ({ s3 with g_activeListener := none }, JsResult.value ())

/-! ## The transmit worker -/

/-- A call on the promise's `Deferred`. -/
inductive Settlement where
  | resolve (bytes : List SCardByte)
  | reject (msg : String)
  deriving DecidableEq, Repr

/-- The members of `TransmitWorker`; `error` is the message kept by
`AsyncWorker::SetError` (empty when none was set) and `deferred` the calls made
on the promise. -/
structure TransmitWorker where
  readerName : String
  apduToSend : List SCardByte
  responseApdu : List SCardByte
  lastRv : Int
  error : String
  deferred : List Settlement
  deriving DecidableEq, Repr

/-- The constructor of `TransmitWorker`. -/
def TransmitWorker.create (readerName : String) (apduToSend : List SCardByte) :
    TransmitWorker :=
  ⟨readerName, apduToSend, [], SCARD_S_SUCCESS, "", []⟩

/-- The destructor of `CardConnectionGuard`, run when `Execute` leaves the
scope of the guard. -/
def guardRelease (hCard : Nat) : List Event :=
  if hCard ≠ 0 then [Event.disconnect hCard SCARD_LEAVE_CARD] else []

/-- The method `TransmitWorker::Execute`. -/
def TransmitWorker.Execute (est : EstablishResult) (c : ConnectResult) (t : TransmitResult)
    (s : World) (w : TransmitWorker) : World × TransmitWorker :=
  let e := EnsureContext false est s
  if !e.2.1 then
    (e.1, { w with lastRv := SCARD_E_INVALID_HANDLE,
                   error := "PC/SC context not established or invalid." })
  else
    let s1 : World :=
      { e.1 with trace := e.1.trace ++ [Event.connect e.1.g_context w.readerName c.rv c.hCard] }
    let w1 : TransmitWorker := { w with lastRv := c.rv }
    if c.rv ≠ SCARD_S_SUCCESS then
      (s1, { w1 with error := "Failed to connect to card in reader: " ++ w.readerName })
    else
      match GetPci c.dwActiveProtocol with
      | none =>
        ({ s1 with trace := s1.trace ++ guardRelease c.hCard },
          { w1 with lastRv := SCARD_E_PROTO_MISMATCH,
                    error := "Failed to get valid PCI structure for the active protocol." })
      | some pci =>
        let s2 : World :=
          { s1 with trace := s1.trace ++ [Event.transmit c.hCard pci w.apduToSend]
                      ++ guardRelease c.hCard }
        let w2 : TransmitWorker :=
          { w1 with responseApdu := fillBuffer (vecResize w1.responseApdu 260) t.written,
                    lastRv := t.rv }
        if t.rv ≠ SCARD_S_SUCCESS then
          (s2, { w2 with error := "APDU transmit/receive failed" })
        else
          (s2, { w2 with responseApdu := vecResize w2.responseApdu t.recvLength })

/-- The method `TransmitWorker::OnOK`. -/
def TransmitWorker.OnOK (w : TransmitWorker) : TransmitWorker :=
  { w with deferred := w.deferred ++ [Settlement.resolve w.responseApdu] }

/-- The method `TransmitWorker::OnError`, called with the error built from the
message of `SetError`. -/
def TransmitWorker.OnError (w : TransmitWorker) (message : String) : TransmitWorker :=
  let errorMessage :=
    if w.lastRv ≠ SCARD_S_SUCCESS then
      message ++ " (" ++ SCardErrorToString none w.lastRv ++ ")"
    else message
  { w with deferred := w.deferred ++ [Settlement.reject errorMessage] }

/-- Completion dispatch of the base class `Napi::AsyncWorker`: `OnOK` when no
error message was set, `OnError` otherwise. -/
def TransmitWorker.OnWorkComplete (w : TransmitWorker) : TransmitWorker :=
  if w.error.length = 0 then w.OnOK else w.OnError w.error

/-- A queued worker from construction to completion: `Execute` on the worker
thread, then the completion dispatch. -/
def transmitRun (est : EstablishResult) (c : ConnectResult) (t : TransmitResult)
    (s : World) (readerName : String) (apduToSend : List SCardByte) : World × TransmitWorker :=
  let r := TransmitWorker.Execute est c t s (TransmitWorker.create readerName apduToSend)
  (r.1, r.2.OnWorkComplete)

/-- The function `TransmitAPDU`: the state, the calls made on the `Deferred` of
the promise it returns, and the message of the JavaScript exception left
pending by `EnsureContext`, if any.  `estWorker` is the answer to the establish
call of the queued worker, which runs to completion. -/
def TransmitAPDU (info : List JsValue) (est estWorker : EstablishResult) (c : ConnectResult)
    (t : TransmitResult) (s : World) : World × List Settlement × Option String :=
  match info.get? 0, info.get? 1 with
  | some (JsValue.str readerName), some (JsValue.buffer apdu) =>
    let e := EnsureContext true est s
    if !e.2.1 then
      (e.1, [Settlement.reject "PC/SC context not established or invalid."], e.2.2)
    else
      let r := transmitRun estWorker c t e.1 readerName apdu
      (r.1, r.2.deferred, none)
  | _, _ =>
    (s, [Settlement.reject "Parameters expected: readerName (string), apdu (Buffer)"], none)

/-! ## Exported function `getAllReaders` -/

/-- The terminator of C strings. -/
def NUL : Char := Char.ofNat 0

/-- The C string starting at a position of a character buffer: the characters
before the first terminator (`Napi::String::New(env, currentReader)`; its
length is `strlen(currentReader)`). -/
def cstrAt (p : List Char) : List Char := p.takeWhile (fun c => c != NUL)

/-- The loop `while (*currentReader != 0) ...` over the multi-string buffer,
from the position whose remaining characters are given.  `none` when the walk
leaves the buffer (a read outside the allocation) or the fuel is used up. -/
def walkReaders : Nat → List Char → Option (List String)
  | 0, _ => none
  | _ + 1, [] => none
  | fuel + 1, c :: cs =>
    if c = NUL then some []
    else
      match walkReaders fuel ((c :: cs).drop ((cstrAt (c :: cs)).length + 1)) with
      | some names => some (String.mk (cstrAt (c :: cs)) :: names)
      | none => none

/-- Result of `SCardListReaders`: status, the length stored through
`pcchReaders`, and the characters written to the buffer (none is written when
the call is made with a null buffer). -/
structure ListReadersResult where
  rv : Int
  readersLen : Nat
  written : List Char
  deriving DecidableEq, Repr

/-- The function `GetAllReaders` (two-step variant).  `first` and `second` are
the results of the two calls of `SCardListReaders`, `allocOk` tells whether
`new (std::nothrow) char[readersLen]` returned memory.  The outer `none` stands
for a walk that reads outside the allocated buffer. -/
def GetAllReaders (est : EstablishResult) (first : ListReadersResult) (allocOk : Bool)
    (second : ListReadersResult) (s : World) : World × Option (JsResult (List String)) :=
  let e := EnsureContext true est s
  if !e.2.1 then (e.1, some (JsResult.throws (e.2.2.getD "")))
  else
    -- `rv`, `readers` (`none` is the null pointer) and `readersLen` after the first block
    let r : Int × Option (List Char) × Nat :=
      if first.rv = SCARD_S_SUCCESS ∧ first.readersLen > 1 then
        if !allocOk then (SCARD_E_NO_MEMORY, none, first.readersLen)
        else (second.rv, some (second.written.take first.readersLen), second.readersLen)
      else if first.rv = SCARD_E_NO_READERS_AVAILABLE then (SCARD_S_SUCCESS, none, 0)
      else (first.rv, none, first.readersLen)
    if r.1 ≠ SCARD_S_SUCCESS then
      if r.1 = SCARD_E_NO_READERS_AVAILABLE then (e.1, some (JsResult.value []))
      else (e.1, some (JsResult.throws (ThrowNapiError "Failed to list readers" r.1)))
    else
      match r.2.1 with
      | some readers =>
        if r.2.2 > 1 then
          match walkReaders (readers.length + 1) readers with
          | some names => (e.1, some (JsResult.value names))
          | none => (e.1, none)
        else (e.1, some (JsResult.value []))
      | none => (e.1, some (JsResult.value []))

/-- The multi-string encoding of a list of names: each name followed by a
terminator, and one more terminator at the end. -/
def encodeMultiString : List String → List Char
  | [] => [NUL]
  | n :: ns => n.toList ++ NUL :: encodeMultiString ns

/-! ## Notions used to state the properties -/

/-- The two-character, zero-padded, uppercase hexadecimal rendering of a byte,
as the specification words it: high digit, then low digit. -/
def hexByte (b : SCardByte) : List Char :=
  [hexDigitUpper (b.val / 16), hexDigitUpper (b.val % 16)]

/-- The concatenation, in order, of the renderings of the bytes, as a string. -/
def hexConcat (bytes : List SCardByte) : String := String.mk (bytes.flatMap hexByte)

/-- The deliveries to a UID channel recorded in a trace, in order: the calls of
`BlockingCall` on it, each of which queues its callback for the JavaScript
thread. -/
def uidDelivered : List Event → List (Tsfn × String)
  | [] => []
  | Event.uidCallback tsfn uid :: es => (tsfn, uid) :: uidDelivered es
  | _ :: es => uidDelivered es

/-- The deliveries to an error channel recorded in a trace, in order: the calls
of `BlockingCall` on it, each of which queues its callback for the JavaScript
thread. -/
def errorDelivered : List Event → List (Tsfn × String)
  | [] => []
  | Event.errorCallback tsfn msg :: es => (tsfn, msg) :: errorDelivered es
  | _ :: es => errorDelivered es

/-- The polling thread stepped once for each element of a list of library
answers, with no call of an exported function in between. -/
def pollSteps : List PollInput → World → World
  | [], s => s
  | inp :: inps, s => pollSteps inps (pollStep inp s)

/-- A listener record used in the examples. -/
def sampleListener : ListenerInfo := ⟨"ACS ACR122U", 1, 2⟩

/-- A state of the polling thread right after a successful wait that reported a
changed state with a card present (`SCARD_STATE_CHANGED | SCARD_STATE_PRESENT`). -/
def cardPresentWorld : World :=
  ⟨true, 7, PollThread.running (PollPc.classify sampleListener ⟨0, 0x22⟩ SCARD_S_SUCCESS),
    some sampleListener, []⟩

/-- Library answers of a pass in which the card answers the read-UID command
with `resp`. -/
def answerWith (resp : List SCardByte) : PollInput :=
  ⟨⟨SCARD_S_SUCCESS, 0x22⟩, ⟨SCARD_S_SUCCESS, 42, SCARD_PROTOCOL_T1⟩,
    ⟨SCARD_S_SUCCESS, resp.length, resp⟩⟩

/-- A state with the context established and no listener. -/
def idleWorld : World := ⟨false, 7, PollThread.notJoinable, none, []⟩

/-- Well-formed arguments of `startListening` for a reader name. -/
def startArgs (readerName : String) : List JsValue :=
  [JsValue.str readerName, JsValue.func 1, JsValue.func 2]

/-- Library answers of a pass in which the wait returns `rv`. -/
def waitReturns (rv : Int) : PollInput :=
  ⟨⟨rv, 0⟩, ⟨SCARD_S_SUCCESS, 42, SCARD_PROTOCOL_T1⟩, ⟨SCARD_S_SUCCESS, 0, []⟩⟩

/-- Surroundings of a `startListening` call in which channel creation yields
the handles `u` and `e` and the thread is created. -/
def startEnv (u e : Tsfn) : StartEnv :=
  ⟨⟨SCARD_S_SUCCESS, 7⟩, u, e, none, waitReturns SCARD_E_TIMEOUT⟩

/-- The state after a successful `startListening` on `idleWorld`. -/
def listeningWorld : World :=
  (StartListening (startArgs "ACS ACR122U") (startEnv 1 2) idleWorld).1

/-- The state reached from `listeningWorld` when the polling thread enters its
loop and its first wait returns `SCARD_E_NO_SERVICE`: the listener has stopped
itself. -/
def selfStoppedWorld : World :=
  pollSteps [waitReturns SCARD_E_NO_SERVICE, waitReturns SCARD_E_NO_SERVICE,
    waitReturns SCARD_E_NO_SERVICE, waitReturns SCARD_E_NO_SERVICE] listeningWorld

/-- A state in which the context is not established. -/
def unestablishedWorld : World := ⟨false, 0, PollThread.notJoinable, none, []⟩

/-- The value of an uppercase hexadecimal digit: its position in the digit
alphabet. -/
def hexDigitValue (c : Char) : Nat := "0123456789ABCDEF".toList.indexOf c

/-- The number written by a sequence of hexadecimal digits, most significant
first. -/
def hexValue (cs : List Char) : Nat := cs.foldl (fun a c => 16 * a + hexDigitValue c) 0

/-- The state reached from `listeningWorld` when the polling thread has entered
its loop and is blocked in its first wait. -/
def waitingWorld : World :=
  pollSteps [waitReturns SCARD_E_TIMEOUT, waitReturns SCARD_E_TIMEOUT] listeningWorld

/-- The framing descriptor the selection yields for a negotiated protocol: the
T0 descriptor for T0, the T1 descriptor for T1 and for every other value. -/
def pciFor (protocol : Nat) : Pci :=
  if protocol = SCARD_PROTOCOL_T0 then Pci.T0 else Pci.T1

/-- The connects and disconnects recorded in a trace, in order. -/
def cardEvents : List Event → List Event
  | [] => []
  | Event.connect hContext reader rv hCard :: es =>
    Event.connect hContext reader rv hCard :: cardEvents es
  | Event.disconnect hCard disposition :: es =>
    Event.disconnect hCard disposition :: cardEvents es
  | _ :: es => cardEvents es

/-- The channel releases recorded in a trace, in order. -/
def released : List Event → List Tsfn
  | [] => []
  | Event.release tsfn :: es => tsfn :: released es
  | _ :: es => released es

/-- A message contains a text: the text occurs in it as a contiguous run of
characters. -/
def containsText (msg text : String) : Prop := text.toList <:+: msg.toList

/-- The state reached from `listeningWorld` when the first wait of the polling
thread has returned `rv` with RunningFlag still true. -/
def classifyingWorld (rv : Int) : World :=
  pollSteps [waitReturns rv, waitReturns rv, waitReturns rv] listeningWorld

/-- The releases made by the code after the loop for a listener copy: each
non-empty channel, UID channel first. -/
def owed (l : ListenerInfo) : List Tsfn :=
  (if l.uidCallback ≠ 0 then [l.uidCallback] else [])
    ++ (if l.errorCallback ≠ 0 then [l.errorCallback] else [])

/-- The releases the polling thread has still to make: those of the listener
copy it holds, or of the copy it is about to take; none once it has returned. -/
def pendingRelease (s : World) : List Tsfn :=
  match s.g_pollThread with
  | PollThread.running PollPc.entry =>
    match s.g_activeListener with
    | none => []
    | some al =>
      if al.uidCallback = 0 ∨ al.errorCallback = 0 then []
      else owed ⟨al.readerName, al.uidCallback, al.errorCallback⟩
  | PollThread.running (PollPc.loopHead l _) => owed l
  | PollThread.running (PollPc.waiting l _) => owed l
  | PollThread.running (PollPc.classify l _ _) => owed l
  | PollThread.notJoinable => []
  | PollThread.finished => []

/-- One move of a sequential execution of the add-on: a call of
`startListening`, a call of `stopListening`, or one step of the polling thread. -/
inductive Action where
  | start (info : List JsValue) (env : StartEnv)
  | stop (join : PollInput)
  | step (inp : PollInput)
  deriving DecidableEq, Repr

/-- The state after one move. -/
def perform : Action → World → World
  | Action.start info env, s => (StartListening info env s).1
  | Action.stop join, s => (StopListening join s).1
  | Action.step inp, s => pollStep inp s

/-- The state after a sequence of moves. -/
def execute : List Action → World → World
  | [], s => s
  | a :: as, s => execute as (perform a s)

/-- The answer given to a step of the polling thread does not cancel a wait
nobody asked to cancel: the add-on calls `SCardCancel` only after it has set
`g_running` to false, so a wait that returns while the flag is true does not
return `SCARD_E_CANCELLED`. -/
def waitAnswerOk (inp : PollInput) (s : World) : Bool :=
  match s.g_pollThread with
  | PollThread.running (PollPc.waiting _ _) =>
    !s.g_running || decide (inp.wait.rv ≠ SCARD_E_CANCELLED)
  | _ => true

/-- Every step of the polling thread in the execution is given such an answer. -/
def cancelOnlyOnRequest : List Action → World → Bool
  | [], _ => true
  | Action.step inp :: as, s => waitAnswerOk inp s && cancelOnlyOnRequest as (pollStep inp s)
  | Action.start info env :: as, s => cancelOnlyOnRequest as (StartListening info env s).1
  | Action.stop join :: as, s => cancelOnlyOnRequest as (StopListening join s).1

/-- The invariant of the executions: a thread about to start has a valid
listener record to copy, a thread about to classify does not hold a
cancellation, and when no thread is in `PollForCard` the flag is false. -/
def loopInv (s : World) : Prop :=
  match s.g_pollThread with
  | PollThread.running PollPc.entry =>
    ∃ al, s.g_activeListener = some al ∧ al.uidCallback ≠ 0 ∧ al.errorCallback ≠ 0
  | PollThread.running (PollPc.classify _ _ rv) => rv ≠ SCARD_E_CANCELLED
  | PollThread.running (PollPc.loopHead _ _) => True
  | PollThread.running (PollPc.waiting _ _) => True
  | PollThread.notJoinable => s.g_running = false
  | PollThread.finished => s.g_running = false

/-! # Properties -/

set_option maxRecDepth 100000 in
theorem setw_hexUpper_byte : ∀ b : SCardByte, setwFill 2 '0' (hexUpper b.val) = hexByte b := by
  decide

theorem hexDigitUpper_mem (d : Nat) (h : d < 16) : hexDigitUpper d ∈ "0123456789ABCDEF".toList := by
  interval_cases d <;> decide

theorem uidStream_eq_flatMap (buf : List SCardByte) (m : Nat) (hm : m ≤ buf.length) :
    uidStream buf m = (buf.take m).flatMap hexByte := by
  induction m with
  | zero => simp [uidStream]
  | succ k ih =>
    have hk : k < buf.length := hm
    have ht : buf.take (k + 1) = buf.take k ++ [buf[k]] := by
      rw [List.take_succ, List.getElem?_eq_getElem hk]; rfl
    have hg : buf.getD k 0 = buf[k] := by
      exact List.getD_eq_getElem _ _ hk
    rw [uidStream, ih (Nat.le_of_lt hk), setw_hexUpper_byte, ht, List.flatMap_append, hg]
    simp

theorem fillBuffer_take (written : List SCardByte) (k n : Nat) (hk : k ≤ written.length)
    (hn : written.length ≤ n) :
    (fillBuffer (zeroBuffer n) written).take k = written.take k := by
  have hz : (zeroBuffer n).length = n := by simp [zeroBuffer]
  rw [fillBuffer, hz, List.take_of_length_le hn, List.take_append_of_le_length hk]

theorem fillBuffer_length (written : List SCardByte) (n : Nat) (hn : written.length ≤ n) :
    (fillBuffer (zeroBuffer n) written).length = n := by
  simp [fillBuffer, zeroBuffer]; omega

theorem hexByte_flatMap_length (bs : List SCardByte) : (bs.flatMap hexByte).length = 2 * bs.length := by
  induction bs with
  | nil => rfl
  | cons b bs ih => simp [List.flatMap_cons, hexByte, ih]; omega

theorem hexByte_flatMap_mem (bs : List SCardByte) (ch : Char) (h : ch ∈ bs.flatMap hexByte) :
    ch ∈ "0123456789ABCDEF".toList := by
  rw [List.mem_flatMap] at h
  obtain ⟨b, _, hb⟩ := h
  simp only [hexByte, List.mem_cons, List.mem_singleton, List.not_mem_nil, or_false] at hb
  rcases hb with rfl | rfl
  · exact hexDigitUpper_mem _ (by omega)
  · exact hexDigitUpper_mem _ (Nat.mod_lt _ (by decide))

theorem uidDelivered_append (a b : List Event) :
    uidDelivered (a ++ b) = uidDelivered a ++ uidDelivered b := by
  induction a with
  | nil => rfl
  | cons e es ih => cases e <;> simp [uidDelivered, ih]

theorem GetPci_isSome (protocol : Nat) :
    ∃ pci, GetPci protocol = some pci := by
  unfold GetPci
  split
  · exact ⟨_, rfl⟩
  · split <;> exact ⟨_, rfl⟩

theorem readCard_uid (hContext : Nat) (listener : ListenerInfo) (c : ConnectResult)
    (t : TransmitResult) (hc : c.rv = SCARD_S_SUCCESS) (ht : t.rv = SCARD_S_SUCCESS)
    (hlen : t.written.length = t.recvLength) (h2 : 2 ≤ t.recvLength)
    (h260 : t.recvLength ≤ 260) :
    ∃ pci, readCard hContext listener c t =
      (true, [Event.connect hContext listener.readerName c.rv c.hCard,
        Event.transmit c.hCard pci cmd_get_uid,
        Event.uidCallback listener.uidCallback
          (hexConcat (t.written.take (t.recvLength - 2))),
        Event.sleep 1500,
        Event.disconnect c.hCard SCARD_LEAVE_CARD]) := by
  obtain ⟨pci, hp⟩ := GetPci_isSome c.dwActiveProtocol
  refine ⟨pci, ?_⟩
  have hb : (fillBuffer (zeroBuffer 260) t.written).length = 260 :=
    fillBuffer_length _ _ (by omega)
  have hs : uidStream (fillBuffer (zeroBuffer 260) t.written) (t.recvLength - 2)
      = (t.written.take (t.recvLength - 2)).flatMap hexByte := by
    rw [uidStream_eq_flatMap _ _ (by omega), fillBuffer_take _ _ _ (by omega) (by omega)]
  simp [readCard, hc, hp, ht, h2, hs, hexConcat]

set_option maxRecDepth 100000 in
/-- Claim C1: in the polling loop, a successful read-UID response of received
length `n ≥ 2` makes the loop deliver to the UID callback exactly the
concatenation of the two-character uppercase hexadecimal renderings of the
bytes `b[0..n-3]`; the string has length `2 * (n - 2)`, holds only the
characters `0-9` and `A-F`, and for the response `04 A1 B2 90 00` it is
`"04A1B2"`. -/
theorem C1_uid_formatting (inp : PollInput) (s : World) (listener : ListenerInfo)
    (rs : ReaderState)
    (hpc : s.g_pollThread = PollThread.running (PollPc.classify listener rs SCARD_S_SUCCESS))
    (hchg : testBit rs.dwEventState SCARD_STATE_CHANGED = true)
    (hpres : testBit rs.dwEventState SCARD_STATE_PRESENT = true)
    (hmute : testBit rs.dwEventState SCARD_STATE_MUTE = false)
    (hc : inp.connect.rv = SCARD_S_SUCCESS) (ht : inp.transmit.rv = SCARD_S_SUCCESS)
    (hlen : inp.transmit.written.length = inp.transmit.recvLength)
    (h2 : 2 ≤ inp.transmit.recvLength) (h260 : inp.transmit.recvLength ≤ 260) :
    uidDelivered (pollStep inp s).trace = uidDelivered s.trace ++
        [(listener.uidCallback,
          hexConcat (inp.transmit.written.take (inp.transmit.recvLength - 2)))]
    ∧ (hexConcat (inp.transmit.written.take (inp.transmit.recvLength - 2))).length
        = 2 * (inp.transmit.recvLength - 2)
    ∧ (∀ ch ∈ (hexConcat (inp.transmit.written.take (inp.transmit.recvLength - 2))).toList,
        ch ∈ "0123456789ABCDEF".toList)
    ∧ uidDelivered (pollStep (answerWith [0x04, 0xA1, 0xB2, 0x90, 0x00]) cardPresentWorld).trace
        = [(1, "04A1B2")] := by
  obtain ⟨pci, hr⟩ := readCard_uid s.g_context listener inp.connect inp.transmit hc ht hlen h2 h260
  refine ⟨?_, ?_, ?_, by decide⟩
  · simp [pollStep, hpc, classifyStep, handleStateChange, hchg, hpres, hmute, hr,
      uidDelivered_append, uidDelivered, hexConcat, SCARD_S_SUCCESS, SCARD_E_CANCELLED,
      SCARD_E_TIMEOUT, SCARD_E_UNKNOWN_READER, SCARD_E_READER_UNAVAILABLE,
      SCARD_E_COMM_DATA_LOST, SCARD_E_NO_SERVICE, SCARD_E_INVALID_HANDLE]
  · simp only [hexConcat, String.length, hexByte_flatMap_length, List.length_take]
    omega
  · intro ch hch
    exact hexByte_flatMap_mem _ ch hch

/-- Witness of C1 on the response `DE AD BE EF 90 00`. -/
theorem C1_uid_formatting_witness :
    uidDelivered (pollStep (answerWith [0xDE, 0xAD, 0xBE, 0xEF, 0x90, 0x00]) cardPresentWorld).trace
      = uidDelivered cardPresentWorld.trace ++ [(sampleListener.uidCallback, "DEADBEEF")] :=
  (C1_uid_formatting (answerWith [0xDE, 0xAD, 0xBE, 0xEF, 0x90, 0x00]) cardPresentWorld
    sampleListener ⟨0, 0x22⟩ rfl (by decide) (by decide) (by decide) rfl rfl rfl
    (by decide) (by decide)).1

/-- A successful read-UID exchange that reports fewer than two received bytes:
the card is disconnected and nothing is reported. -/
theorem readCard_short (hContext : Nat) (listener : ListenerInfo) (c : ConnectResult)
    (t : TransmitResult) (hc : c.rv = SCARD_S_SUCCESS) (ht : t.rv = SCARD_S_SUCCESS)
    (h2 : t.recvLength < 2) :
    ∃ pci, readCard hContext listener c t =
      (false, [Event.connect hContext listener.readerName c.rv c.hCard,
        Event.transmit c.hCard pci cmd_get_uid,
        Event.disconnect c.hCard SCARD_LEAVE_CARD]) := by
  obtain ⟨pci, hp⟩ := GetPci_isSome c.dwActiveProtocol
  refine ⟨pci, ?_⟩
  have h2n : ¬ 2 ≤ t.recvLength := by omega
  simp [readCard, hc, hp, ht, h2n, SCARD_S_SUCCESS]

set_option maxRecDepth 100000 in
/-- Claim C2, refuted as stated: for the successful response `90 00` (received
length exactly 2) the polling loop does call the UID sink, once, with the empty
string. -/
theorem C2_counterexample :
    uidDelivered (pollStep (answerWith [0x90, 0x00]) cardPresentWorld).trace
      = [(sampleListener.uidCallback, "")] := by
  decide

/-- Claim C2, amended: a successful read-UID transmit whose received length is
exactly 2 delivers exactly one UID callback, carrying the empty string; the UID
sink is left uncalled when the received length is below 2. -/
theorem C2_length_two_delivers_empty_uid (inp : PollInput) (s : World)
    (listener : ListenerInfo) (rs : ReaderState)
    (hpc : s.g_pollThread = PollThread.running (PollPc.classify listener rs SCARD_S_SUCCESS))
    (hchg : testBit rs.dwEventState SCARD_STATE_CHANGED = true)
    (hpres : testBit rs.dwEventState SCARD_STATE_PRESENT = true)
    (hmute : testBit rs.dwEventState SCARD_STATE_MUTE = false)
    (hc : inp.connect.rv = SCARD_S_SUCCESS) (ht : inp.transmit.rv = SCARD_S_SUCCESS)
    (hlen : inp.transmit.written.length = inp.transmit.recvLength) :
    (inp.transmit.recvLength = 2 →
      uidDelivered (pollStep inp s).trace
        = uidDelivered s.trace ++ [(listener.uidCallback, "")])
    ∧ (inp.transmit.recvLength < 2 →
      uidDelivered (pollStep inp s).trace = uidDelivered s.trace) := by
  have hstep : ∀ r : Bool × List Event,
      readCard s.g_context listener inp.connect inp.transmit = r →
      (pollStep inp s).trace = s.trace ++ r.2 := by
    intro r hr
    simp [pollStep, hpc, classifyStep, handleStateChange, hchg, hpres, hmute, hr,
      SCARD_S_SUCCESS, SCARD_E_CANCELLED, SCARD_E_TIMEOUT, SCARD_E_UNKNOWN_READER,
      SCARD_E_READER_UNAVAILABLE, SCARD_E_COMM_DATA_LOST, SCARD_E_NO_SERVICE,
      SCARD_E_INVALID_HANDLE]
  constructor
  · intro h2
    obtain ⟨pci, hr⟩ := readCard_uid s.g_context listener inp.connect inp.transmit hc ht hlen
      (by omega) (by omega)
    rw [hstep _ hr, uidDelivered_append]
    simp [uidDelivered, h2, hexConcat]
  · intro h2
    obtain ⟨pci, hr⟩ := readCard_short s.g_context listener inp.connect inp.transmit hc ht h2
    rw [hstep _ hr, uidDelivered_append]
    simp [uidDelivered]

set_option maxRecDepth 100000 in
/-- Witness of the amended C2 on the responses `90 00` (length 2). -/
theorem C2_length_two_delivers_empty_uid_witness :
    uidDelivered (pollStep (answerWith [0x90, 0x00]) cardPresentWorld).trace
      = uidDelivered cardPresentWorld.trace ++ [(sampleListener.uidCallback, "")] :=
  (C2_length_two_delivers_empty_uid (answerWith [0x90, 0x00]) cardPresentWorld
    sampleListener ⟨0, 0x22⟩ rfl (by decide) (by decide) (by decide) rfl rfl rfl).1 rfl

theorem exitLoop_frame (l : ListenerInfo) (s : World) :
    (exitLoop l s).g_running = s.g_running ∧ (exitLoop l s).g_context = s.g_context
    ∧ (exitLoop l s).g_activeListener = s.g_activeListener
    ∧ (exitLoop l s).g_pollThread = PollThread.finished := by
  simp [exitLoop]

theorem classifyStep_frame (inp : PollInput) (l : ListenerInfo) (rs : ReaderState) (rv : Int)
    (s : World) :
    ((classifyStep inp l rs rv s).g_running = true → s.g_running = true)
    ∧ (classifyStep inp l rs rv s).g_context = s.g_context
    ∧ (classifyStep inp l rs rv s).g_activeListener = s.g_activeListener
    ∧ ((classifyStep inp l rs rv s).g_pollThread = PollThread.finished
        ∨ ∃ l1 rs1, (classifyStep inp l rs rv s).g_pollThread
            = PollThread.running (PollPc.loopHead l1 rs1)) := by
  unfold classifyStep
  split_ifs <;> simp [exitLoop]

theorem pollStep_frame (inp : PollInput) (s : World) :
    ((pollStep inp s).g_running = true → s.g_running = true)
    ∧ (pollStep inp s).g_context = s.g_context
    ∧ (pollStep inp s).g_activeListener = s.g_activeListener := by
  unfold pollStep
  split
  · split
    · simp
    · split_ifs <;> simp
  · split_ifs <;> simp [exitLoop]
  · split_ifs <;> simp [exitLoop]
  · have h := classifyStep_frame inp ‹_› ‹_› ‹_› s
    exact ⟨h.1, h.2.1, h.2.2.1⟩
  · simp
  · simp

theorem pollStep_idle (inp : PollInput) (s : World)
    (h : ∀ pc, s.g_pollThread ≠ PollThread.running pc) : pollStep inp s = s := by
  unfold pollStep
  split <;> first | rfl | (exact absurd ‹_› (h _))

theorem pollSteps_idle (inps : List PollInput) (s : World)
    (h : ∀ pc, s.g_pollThread ≠ PollThread.running pc) : pollSteps inps s = s := by
  induction inps with
  | nil => rfl
  | cons i is ih => rw [pollSteps, pollStep_idle i s h, ih]

theorem pollSteps_frame (inps : List PollInput) (s : World) :
    ((pollSteps inps s).g_running = true → s.g_running = true)
    ∧ (pollSteps inps s).g_context = s.g_context
    ∧ (pollSteps inps s).g_activeListener = s.g_activeListener := by
  induction inps generalizing s with
  | nil => simp [pollSteps]
  | cons i is ih =>
    have h1 := ih (pollStep i s)
    have h2 := pollStep_frame i s
    simp only [pollSteps]
    exact ⟨fun h => h2.1 (h1.1 h), h1.2.1.trans h2.2.1, h1.2.2.trans h2.2.2⟩

theorem runPollThread_frame (n : Nat) (inp : PollInput) (s : World) :
    ((runPollThread n inp s).g_running = true → s.g_running = true)
    ∧ (runPollThread n inp s).g_context = s.g_context
    ∧ (runPollThread n inp s).g_activeListener = s.g_activeListener := by
  induction n generalizing s with
  | zero => simp [runPollThread]
  | succ k ih =>
    unfold runPollThread
    split
    · have h1 := ih (pollStep inp s)
      have h2 := pollStep_frame inp s
      exact ⟨fun h => h2.1 (h1.1 h), h1.2.1.trans h2.2.1, h1.2.2.trans h2.2.2⟩
    · simp

theorem runPollThread_idle (n : Nat) (inp : PollInput) (s : World)
    (h : ∀ pc, s.g_pollThread ≠ PollThread.running pc) : runPollThread n inp s = s := by
  cases n with
  | zero => rfl
  | succ k =>
    unfold runPollThread
    split
    · exact absurd ‹_› (h _)
    · rfl

theorem runPollThread_succ (n : Nat) (inp : PollInput) (s : World) (pc : PollPc)
    (h : s.g_pollThread = PollThread.running pc) :
    runPollThread (n + 1) inp s = runPollThread n inp (pollStep inp s) := by
  rw [runPollThread]
  simp [h]

/-- With the flag false, a thread at the loop head or in the wait returns at its
next step. -/
theorem pollStep_exits (inp : PollInput) (s : World) (l : ListenerInfo) (rs : ReaderState)
    (hrun : s.g_running = false)
    (h : s.g_pollThread = PollThread.running (PollPc.loopHead l rs)
      ∨ s.g_pollThread = PollThread.running (PollPc.waiting l rs)) :
    (pollStep inp s).g_pollThread = PollThread.finished := by
  rcases h with h | h <;> simp [pollStep, h, hrun, exitLoop]

/-- From the entry or from the classification, the next step either returns
or reaches the loop head. -/
theorem pollStep_to_head (inp : PollInput) (s : World)
    (h : s.g_pollThread = PollThread.running PollPc.entry
      ∨ ∃ l rs rv, s.g_pollThread = PollThread.running (PollPc.classify l rs rv)) :
    (pollStep inp s).g_pollThread = PollThread.finished
    ∨ ∃ l1 rs1, (pollStep inp s).g_pollThread = PollThread.running (PollPc.loopHead l1 rs1) := by
  rcases h with h | ⟨l, rs, rv, h⟩
  · unfold pollStep
    rw [h]
    simp only
    split
    · simp
    · split_ifs <;> simp
  · have hc := (classifyStep_frame inp l rs rv s).2.2.2
    simpa [pollStep, h] using hc

/-- With the flag false the thread returns within three steps. -/
theorem runPollThread_finishes (inp : PollInput) (s : World) (hrun : s.g_running = false)
    (hj : s.g_pollThread ≠ PollThread.notJoinable) :
    (runPollThread 3 inp s).g_pollThread = PollThread.finished := by
  have hfin : ∀ (n : Nat) (w : World), w.g_pollThread = PollThread.finished →
      (runPollThread n inp w).g_pollThread = PollThread.finished := by
    intro n w hw
    rw [runPollThread_idle n inp w (by intro pc; rw [hw]; exact fun h => PollThread.noConfusion h)]
    exact hw
  have hhead : ∀ (n : Nat) (w : World) (l : ListenerInfo) (rs : ReaderState),
      w.g_running = false →
      (w.g_pollThread = PollThread.running (PollPc.loopHead l rs)
        ∨ w.g_pollThread = PollThread.running (PollPc.waiting l rs)) →
      (runPollThread (n + 1) inp w).g_pollThread = PollThread.finished := by
    intro n w l rs hw h
    have hpc : ∃ pc, w.g_pollThread = PollThread.running pc := by
      rcases h with h | h <;> exact ⟨_, h⟩
    obtain ⟨pc, hpc⟩ := hpc
    rw [runPollThread_succ n inp w pc hpc]
    exact hfin n _ (pollStep_exits inp w l rs hw h)
  have htwo : ∀ (w : World), w.g_running = false →
      (w.g_pollThread = PollThread.running PollPc.entry
        ∨ ∃ l rs rv, w.g_pollThread = PollThread.running (PollPc.classify l rs rv)) →
      (runPollThread 3 inp w).g_pollThread = PollThread.finished := by
    intro w hw h
    have hpc : ∃ pc, w.g_pollThread = PollThread.running pc := by
      rcases h with h | ⟨l, rs, rv, h⟩ <;> exact ⟨_, h⟩
    obtain ⟨pc, hpc⟩ := hpc
    rw [runPollThread_succ 2 inp w pc hpc]
    have hw1 : (pollStep inp w).g_running = false := by
      cases hb : (pollStep inp w).g_running with
      | false => rfl
      | true => rw [(pollStep_frame inp w).1 hb] at hw; exact absurd hw (by decide)
    rcases pollStep_to_head inp w h with h1 | ⟨l1, rs1, h1⟩
    · exact hfin 2 _ h1
    · exact hhead 1 _ l1 rs1 hw1 (Or.inl h1)
  rcases hth : s.g_pollThread with _ | pc | _
  · exact absurd hth hj
  · rcases pc with _ | ⟨l, rs⟩ | ⟨l, rs⟩ | ⟨l, rs, rv⟩
    · exact htwo s hrun (Or.inl hth)
    · exact hhead 2 s l rs hrun (Or.inl hth)
    · exact hhead 2 s l rs hrun (Or.inr hth)
    · exact htwo s hrun (Or.inr ⟨l, rs, rv, hth⟩)
  · exact hfin 3 s hth

theorem joinPollThread_joined (inp : PollInput) (s : World) (hrun : s.g_running = false)
    (hj : s.g_pollThread ≠ PollThread.notJoinable) :
    (joinPollThread inp s).g_pollThread = PollThread.notJoinable
    ∧ (joinPollThread inp s).g_running = false
    ∧ (joinPollThread inp s).g_context = s.g_context
    ∧ (joinPollThread inp s).g_activeListener = s.g_activeListener := by
  have h := runPollThread_finishes inp s hrun hj
  have hf := runPollThread_frame 3 inp s
  have hr : (runPollThread 3 inp s).g_running = false := by
    cases hb : (runPollThread 3 inp s).g_running with
    | false => rfl
    | true => rw [hf.1 hb] at hrun; exact absurd hrun (by decide)
  simp [joinPollThread, h, hr, hf.2.1, hf.2.2]

theorem StartListening_while_running (s : World) (env : StartEnv) (name : String)
    (f g : Nat) (rest : List JsValue) (hrun : s.g_running = true) (hctx : s.g_context ≠ 0) :
    StartListening (JsValue.str name :: JsValue.func f :: JsValue.func g :: rest) env s
      = (s, JsResult.throws "Listener is already active. Call stopListening first.") := by
  simp [StartListening, EnsureContext, hrun, hctx]

theorem StartListening_ok_context (s : World) (info : List JsValue) (env : StartEnv)
    (hest : env.establish.rv = SCARD_S_SUCCESS → env.establish.hContext ≠ 0)
    (hok : (StartListening info env s).2 = JsResult.value ()) :
    (StartListening info env s).1.g_context ≠ 0 ∧ (StartListening info env s).1.g_running = true := by
  have he : (EnsureContext true env.establish s).2.1 = true →
      (EnsureContext true env.establish s).1.g_context ≠ 0 := by
    unfold EnsureContext
    by_cases h1 : s.g_context ≠ 0
    · simp [h1]
    · by_cases h2 : env.establish.rv = SCARD_S_SUCCESS
      · simpa [h1, h2] using hest h2
      · simp [h1, h2]
  revert hok
  unfold StartListening
  split
  · dsimp only
    by_cases h1 : (EnsureContext true env.establish s).2.1 = true
    · by_cases h2 : (EnsureContext true env.establish s).1.g_running = true
      · simp [h1, h2]
      · by_cases h3 : env.tsfnUid = 0 ∨ env.tsfnError = 0
        · simp [h1, h2, h3]
        · have hrun1 : (EnsureContext true env.establish s).1.g_running = false := by
            simpa using h2
          have hj : (match (EnsureContext true env.establish s).1.g_pollThread with
                | PollThread.notJoinable => (EnsureContext true env.establish s).1
                | _ => joinPollThread env.join (EnsureContext true env.establish s).1).g_context
              = (EnsureContext true env.establish s).1.g_context := by
            split
            · rfl
            · rename_i hne
              exact (joinPollThread_joined env.join _ hrun1 (by intro h; exact hne h)).2.2.1
          cases hsp : env.spawnError with
          | none =>
            intro _
            simp only [h1, h2, h3, hsp, Bool.not_true, Bool.false_eq_true, if_false]
            exact ⟨by rw [hj]; exact he h1, trivial⟩
          | some what => simp [h1, h2, h3, hsp]
    · simp [h1]
  · simp

set_option maxRecDepth 100000 in
/-- Claim C3, refuted as stated: after a successful startListening whose
polling thread then stops itself on `SCARD_E_NO_SERVICE`, a second
startListening (no stopListening in between) succeeds and replaces the listener
record. -/
theorem C3_counterexample :
    (StartListening (startArgs "ACS ACR122U") (startEnv 1 2) idleWorld).2 = JsResult.value ()
    ∧ selfStoppedWorld.g_running = false
    ∧ (StartListening (startArgs "Second reader") (startEnv 3 4) selfStoppedWorld).2
        = JsResult.value ()
    ∧ (StartListening (startArgs "Second reader") (startEnv 3 4) selfStoppedWorld).1.g_activeListener
        = some ⟨"Second reader", 3, 4⟩ := by
  decide


/-- Claim C3, amended: in every state reached by a successful startListening
followed by steps of the polling thread only (no stopListening) in which
RunningFlag is still true, a second well-formed startListening fails with the
already-active error and leaves the whole state (flag, listener record, thread,
context, trace) unchanged. -/
theorem C3_second_start_rejected_while_running (s0 : World) (info1 : List JsValue)
    (env1 env2 : StartEnv) (inps : List PollInput) (name2 : String) (f g : Nat)
    (rest : List JsValue)
    (hest : env1.establish.rv = SCARD_S_SUCCESS → env1.establish.hContext ≠ 0)
    (hstart : (StartListening info1 env1 s0).2 = JsResult.value ())
    (hrun : (pollSteps inps (StartListening info1 env1 s0).1).g_running = true) :
    StartListening (JsValue.str name2 :: JsValue.func f :: JsValue.func g :: rest) env2
        (pollSteps inps (StartListening info1 env1 s0).1)
      = (pollSteps inps (StartListening info1 env1 s0).1,
          JsResult.throws "Listener is already active. Call stopListening first.") := by
  have hctx := (StartListening_ok_context s0 info1 env1 hest hstart).1
  have hframe := pollSteps_frame inps (StartListening info1 env1 s0).1
  exact StartListening_while_running _ env2 name2 f g rest hrun (by rw [hframe.2.1]; exact hctx)

set_option maxRecDepth 100000 in
/-- Witness of the amended C3: the listener of `listeningWorld` after its
thread entered the loop and saw one timeout. -/
theorem C3_second_start_rejected_while_running_witness :
    StartListening (startArgs "Second reader") (startEnv 3 4)
        (pollSteps [waitReturns SCARD_E_TIMEOUT, waitReturns SCARD_E_TIMEOUT,
          waitReturns SCARD_E_TIMEOUT, waitReturns SCARD_E_TIMEOUT]
          (StartListening (startArgs "ACS ACR122U") (startEnv 1 2) idleWorld).1)
      = (pollSteps [waitReturns SCARD_E_TIMEOUT, waitReturns SCARD_E_TIMEOUT,
          waitReturns SCARD_E_TIMEOUT, waitReturns SCARD_E_TIMEOUT]
          (StartListening (startArgs "ACS ACR122U") (startEnv 1 2) idleWorld).1,
          JsResult.throws "Listener is already active. Call stopListening first.") :=
  C3_second_start_rejected_while_running idleWorld (startArgs "ACS ACR122U") (startEnv 1 2)
    (startEnv 3 4) _ "Second reader" 1 2 [] (by decide) (by decide) (by decide)

theorem StopListening_flag (join : PollInput) (s : World) :
    (StopListening join s).1.g_running = false ∧ (StopListening join s).2 = JsResult.value () := by
  unfold StopListening
  by_cases hr : s.g_running = true
  · simp only [hr, Bool.not_true, Bool.false_eq_true, if_false, and_true]
    split
    · split_ifs <;> rfl
    · rename_i hne
      refine (joinPollThread_joined join _ ?_ (by intro h; exact hne h)).2.1
      split_ifs <;> rfl
  · have hf : s.g_running = false := by simpa using hr
    simp [hf]

/-- Claim C4: stopListening called while RunningFlag is false returns success
and changes nothing (no cancel, no join, context handle, flag and listener
record as before: the state, trace included, is the same); hence a second
stopListening in a row returns success and leaves the state of the first. -/
theorem C4_stop_when_idle_is_noop :
    (∀ (join : PollInput) (s : World), s.g_running = false →
      StopListening join s = (s, JsResult.value ()))
    ∧ (∀ (j1 j2 : PollInput) (s : World),
      StopListening j2 (StopListening j1 s).1 = ((StopListening j1 s).1, JsResult.value ())) := by
  have h1 : ∀ (join : PollInput) (s : World), s.g_running = false →
      StopListening join s = (s, JsResult.value ()) := by
    intro join s h
    simp [StopListening, h]
  exact ⟨h1, fun j1 j2 s => h1 j2 _ (StopListening_flag j1 s).1⟩

set_option maxRecDepth 100000 in
/-- Witness of C4 on the state without listener and on the running listener. -/
theorem C4_stop_when_idle_is_noop_witness :
    idleWorld.g_running = false
    ∧ StopListening (waitReturns SCARD_E_TIMEOUT) idleWorld = (idleWorld, JsResult.value ())
    ∧ StopListening (waitReturns SCARD_E_TIMEOUT)
        (StopListening (waitReturns SCARD_E_CANCELLED) listeningWorld).1
      = ((StopListening (waitReturns SCARD_E_CANCELLED) listeningWorld).1, JsResult.value ()) :=
  ⟨by decide, C4_stop_when_idle_is_noop.1 _ idleWorld (by decide),
    C4_stop_when_idle_is_noop.2 _ _ listeningWorld⟩

/-- A completed join is the last call recorded: everything the thread did
precedes it. -/
theorem joinPollThread_last (inp : PollInput) (s : World) (hrun : s.g_running = false)
    (hj : s.g_pollThread ≠ PollThread.notJoinable) :
    (joinPollThread inp s).trace.getLast? = some Event.join := by
  have h := runPollThread_finishes inp s hrun hj
  simp [joinPollThread, h]

set_option maxRecDepth 100000 in
/-- Claim C5, refuted as stated.  In the state where the listener has stopped
itself on a fatal status, stopListening returns with the thread not joined and
the listener record not cleared.  And when stopListening is called while the
thread is past its flag check with a card present, the thread makes its call on
the UID channel while stopListening waits in the join: the call is recorded
between the cancel and the join, so the callback it queues for the JavaScript
thread, which is the thread inside stopListening, is still to run when
stopListening returns. -/
theorem C5_counterexample :
    (StopListening (waitReturns SCARD_E_TIMEOUT) selfStoppedWorld).2 = JsResult.value ()
    ∧ (StopListening (waitReturns SCARD_E_TIMEOUT) selfStoppedWorld).1.g_pollThread
        = PollThread.finished
    ∧ (StopListening (waitReturns SCARD_E_TIMEOUT) selfStoppedWorld).1.g_activeListener
        = some ⟨"ACS ACR122U", 1, 2⟩
    ∧ cardPresentWorld.g_running = true
    ∧ (StopListening (answerWith [0x04, 0xA1, 0xB2, 0x90, 0x00]) cardPresentWorld).1.trace
        = [Event.cancel 7,
            Event.connect 7 "ACS ACR122U" SCARD_S_SUCCESS 42,
            Event.transmit 42 Pci.T1 cmd_get_uid,
            Event.uidCallback 1 "04A1B2",
            Event.sleep 1500,
            Event.disconnect 42 SCARD_LEAVE_CARD,
            Event.release 1,
            Event.release 2,
            Event.join] := by
  decide

/-- Claim C5, amended: after a stopListening call made while RunningFlag is
true returns, the polling thread has been joined (the join is the last call
recorded), RunningFlag is false, the listener record is cleared and the thread
takes no further step: it makes no further call on a callback channel, every
call it made on a channel precedes the return of stopListening.  A call made
when the listener has already stopped itself (RunningFlag false, thread
returned) returns with the state as it was, the thread unjoined and the record
in place, and the thread makes no further call on a channel either. -/
theorem C5_stop_while_running_joins_and_clears (join : PollInput) (s : World) :
    (s.g_running = true →
      (StopListening join s).2 = JsResult.value ()
      ∧ (StopListening join s).1.g_pollThread = PollThread.notJoinable
      ∧ (StopListening join s).1.g_running = false
      ∧ (StopListening join s).1.g_activeListener = none
      ∧ (s.g_pollThread ≠ PollThread.notJoinable →
          (StopListening join s).1.trace.getLast? = some Event.join)
      ∧ ∀ inps : List PollInput,
          pollSteps inps (StopListening join s).1 = (StopListening join s).1)
    ∧ (s.g_running = false → s.g_pollThread = PollThread.finished →
      StopListening join s = (s, JsResult.value ())
      ∧ ∀ inps : List PollInput, pollSteps inps (StopListening join s).1 = s) := by
  constructor
  · intro hr
    have hth : (StopListening join s).1.g_pollThread = PollThread.notJoinable := by
      unfold StopListening
      simp only [hr, Bool.not_true, Bool.false_eq_true, if_false]
      split
      · assumption
      · rename_i hne
        refine (joinPollThread_joined join _ ?_ (by intro h; exact hne h)).1
        split_ifs <;> rfl
    refine ⟨(StopListening_flag join s).2, hth, (StopListening_flag join s).1, ?_, ?_, ?_⟩
    · simp [StopListening, hr]
    · intro hne
      unfold StopListening
      simp only [hr, Bool.not_true, Bool.false_eq_true, if_false]
      split
      · rename_i heq
        exfalso
        apply hne
        revert heq
        split_ifs <;> exact fun h => h
      · rename_i hne2
        refine joinPollThread_last join _ ?_ (by intro h; exact hne2 h)
        split_ifs <;> rfl
    · intro inps
      exact pollSteps_idle inps _ (by intro pc; rw [hth]; exact fun h => PollThread.noConfusion h)
  · intro hr hth
    have h1 : StopListening join s = (s, JsResult.value ()) := by simp [StopListening, hr]
    refine ⟨h1, fun inps => ?_⟩
    rw [h1]
    exact pollSteps_idle inps s (by intro pc; rw [hth]; exact fun h => PollThread.noConfusion h)

set_option maxRecDepth 100000 in
/-- Witness of the amended C5 on the running listener and on the listener that
stopped itself. -/
theorem C5_stop_while_running_joins_and_clears_witness :
    (StopListening (waitReturns SCARD_E_CANCELLED) listeningWorld).1.g_pollThread
        = PollThread.notJoinable
    ∧ (StopListening (waitReturns SCARD_E_CANCELLED) listeningWorld).1.g_activeListener = none
    ∧ StopListening (waitReturns SCARD_E_TIMEOUT) selfStoppedWorld
        = (selfStoppedWorld, JsResult.value ()) :=
  ⟨((C5_stop_while_running_joins_and_clears (waitReturns SCARD_E_CANCELLED) listeningWorld).1
      (by decide)).2.1,
    ((C5_stop_while_running_joins_and_clears (waitReturns SCARD_E_CANCELLED) listeningWorld).1
      (by decide)).2.2.2.1,
    ((C5_stop_while_running_joins_and_clears (waitReturns SCARD_E_TIMEOUT) selfStoppedWorld).2
      (by decide) (by decide)).1⟩

theorem transmit_buffer_roundtrip (written : List SCardByte) (hn : written.length ≤ 260) :
    vecResize (fillBuffer (vecResize [] 260) written) written.length = written := by
  have h0 : vecResize [] 260 = zeroBuffer 260 := by
    simp only [vecResize, zeroBuffer, List.take_nil, List.nil_append, List.length_nil, Nat.sub_zero]
  have hl := fillBuffer_length written 260 hn
  have ht := fillBuffer_take written written.length 260 (le_refl _) hn
  rw [h0, vecResize, ht, hl]
  simp
  omega

/-- Claim C6: for every request, when the context is available, the connect
succeeds and the exchange succeeds with the library writing the bytes
`r[0..n-1]` (`n ≤ 260`) into the 260-byte buffer and reporting length `n`, the
transmit operation resolves its promise exactly once, with exactly `r`: length
`n`, same order, status trailer included. -/
theorem C6_transmit_round_trip (est : EstablishResult) (c : ConnectResult) (t : TransmitResult)
    (s : World) (readerName : String) (apdu : List SCardByte)
    (hctx : (EnsureContext false est s).2.1 = true)
    (hc : c.rv = SCARD_S_SUCCESS) (ht : t.rv = SCARD_S_SUCCESS)
    (hlen : t.written.length = t.recvLength) (h260 : t.recvLength ≤ 260) :
    (transmitRun est c t s readerName apdu).2.deferred = [Settlement.resolve t.written]
    ∧ (transmitRun est c t s readerName apdu).2.responseApdu.length = t.recvLength := by
  obtain ⟨pci, hp⟩ := GetPci_isSome c.dwActiveProtocol
  have hr := transmit_buffer_roundtrip t.written (by omega)
  rw [hlen] at hr
  simp [transmitRun, TransmitWorker.Execute, TransmitWorker.create, hctx, hc, ht, hp,
    TransmitWorker.OnWorkComplete, TransmitWorker.OnOK, hr, hlen, SCARD_S_SUCCESS]


theorem append_paren_ne_empty (a : String) : a ++ ")" ≠ "" := by
  intro he
  have hl := congrArg String.length he
  rw [String.length_append] at hl
  have h0 : ("" : String).length = 0 := rfl
  have h1 : (")" : String).length = 1 := rfl
  omega

theorem transmitRun_cases (est : EstablishResult) (c : ConnectResult) (t : TransmitResult)
    (s : World) (readerName : String) (apdu : List SCardByte) :
    ((EnsureContext false est s).2.1 = false →
      (transmitRun est c t s readerName apdu).2.deferred
        = [Settlement.reject ("PC/SC context not established or invalid."
            ++ " (" ++ SCardErrorToString none SCARD_E_INVALID_HANDLE ++ ")")])
    ∧ ((EnsureContext false est s).2.1 = true → c.rv ≠ SCARD_S_SUCCESS →
      (transmitRun est c t s readerName apdu).2.deferred
        = [Settlement.reject (("Failed to connect to card in reader: " ++ readerName)
            ++ " (" ++ SCardErrorToString none c.rv ++ ")")])
    ∧ ((EnsureContext false est s).2.1 = true → c.rv = SCARD_S_SUCCESS →
        t.rv ≠ SCARD_S_SUCCESS →
      (transmitRun est c t s readerName apdu).2.deferred
        = [Settlement.reject ("APDU transmit/receive failed"
            ++ " (" ++ SCardErrorToString none t.rv ++ ")")])
    ∧ ((EnsureContext false est s).2.1 = true → c.rv = SCARD_S_SUCCESS →
        t.rv = SCARD_S_SUCCESS →
      ∃ bytes, (transmitRun est c t s readerName apdu).2.deferred
        = [Settlement.resolve bytes]) := by
  obtain ⟨pci, hp⟩ := GetPci_isSome c.dwActiveProtocol
  refine ⟨?_, ?_, ?_, ?_⟩
  · intro h
    have hne : SCARD_E_INVALID_HANDLE ≠ SCARD_S_SUCCESS := by decide
    have hl : ("PC/SC context not established or invalid." : String).length ≠ 0 := by decide
    simp [transmitRun, TransmitWorker.Execute, TransmitWorker.create, h,
      TransmitWorker.OnWorkComplete, TransmitWorker.OnError, hne, hl]
  · intro h hc
    have hl : ("Failed to connect to card in reader: " : String).length ≠ 0 := by decide
    simp [transmitRun, TransmitWorker.Execute, TransmitWorker.create, h, hc,
      TransmitWorker.OnWorkComplete, TransmitWorker.OnError, hl]
  · intro h hc ht
    have hl : ("APDU transmit/receive failed" : String).length ≠ 0 := by decide
    simp [transmitRun, TransmitWorker.Execute, TransmitWorker.create, h, hc, ht, hp,
      TransmitWorker.OnWorkComplete, TransmitWorker.OnError, hl]
  · intro h hc ht
    simp [transmitRun, TransmitWorker.Execute, TransmitWorker.create, h, hc, ht, hp,
      TransmitWorker.OnWorkComplete, TransmitWorker.OnOK, SCARD_S_SUCCESS]


/-- A successful ensure leaves a non-null handle, given that the library
returns a non-null handle with a successful establish. -/
theorem EnsureContext_ok_context (withEnv : Bool) (est : EstablishResult) (s : World)
    (hest : est.rv = SCARD_S_SUCCESS → est.hContext ≠ 0)
    (h : (EnsureContext withEnv est s).2.1 = true) :
    (EnsureContext withEnv est s).1.g_context ≠ 0 := by
  revert h
  unfold EnsureContext
  by_cases h1 : s.g_context ≠ 0
  · simp [h1]
  · by_cases h2 : est.rv = SCARD_S_SUCCESS
    · simpa [h1, h2] using hest h2
    · simp [h1, h2]

theorem EnsureContext_established (withEnv : Bool) (est : EstablishResult) (s : World)
    (h : s.g_context ≠ 0) : EnsureContext withEnv est s = (s, true, none) := by
  simp [EnsureContext, h]

/-- Claim C7: every transmit worker the add-on queues (`TransmitAPDU` queues one
only after its own context step succeeded) ends in exactly one of two outcomes,
a response or an error, never both: the promise is settled exactly once.  The
worker's context step succeeds, so its error outcomes are the connect failure
and the transmit failure; in each the rejection message is non-empty and
equals the step-specific message followed by " (", the translation of the
status of the failing step, and ")". -/
theorem C7_transmit_worker_outcome (est estWorker : EstablishResult) (c : ConnectResult)
    (t : TransmitResult) (s : World) (readerName : String) (apdu : List SCardByte)
    (rest : List JsValue)
    (hest : est.rv = SCARD_S_SUCCESS → est.hContext ≠ 0)
    (hctx : (EnsureContext true est s).2.1 = true) :
    (TransmitAPDU (JsValue.str readerName :: JsValue.buffer apdu :: rest) est estWorker c t s).2.1
        = (transmitRun estWorker c t (EnsureContext true est s).1 readerName apdu).2.deferred
    ∧ (EnsureContext false estWorker (EnsureContext true est s).1).2.1 = true
    ∧ (TransmitAPDU (JsValue.str readerName :: JsValue.buffer apdu :: rest)
          est estWorker c t s).2.1.length = 1
    ∧ (∀ msg, Settlement.reject msg
          ∈ (TransmitAPDU (JsValue.str readerName :: JsValue.buffer apdu :: rest)
              est estWorker c t s).2.1 → msg ≠ "")
    ∧ (c.rv ≠ SCARD_S_SUCCESS →
      (TransmitAPDU (JsValue.str readerName :: JsValue.buffer apdu :: rest)
          est estWorker c t s).2.1
        = [Settlement.reject (("Failed to connect to card in reader: " ++ readerName)
            ++ " (" ++ SCardErrorToString none c.rv ++ ")")])
    ∧ (c.rv = SCARD_S_SUCCESS → t.rv ≠ SCARD_S_SUCCESS →
      (TransmitAPDU (JsValue.str readerName :: JsValue.buffer apdu :: rest)
          est estWorker c t s).2.1
        = [Settlement.reject ("APDU transmit/receive failed"
            ++ " (" ++ SCardErrorToString none t.rv ++ ")")])
    ∧ (c.rv = SCARD_S_SUCCESS → t.rv = SCARD_S_SUCCESS →
      ∃ bytes, (TransmitAPDU (JsValue.str readerName :: JsValue.buffer apdu :: rest)
          est estWorker c t s).2.1 = [Settlement.resolve bytes]) := by
  have hlink : (TransmitAPDU (JsValue.str readerName :: JsValue.buffer apdu :: rest)
        est estWorker c t s).2.1
      = (transmitRun estWorker c t (EnsureContext true est s).1 readerName apdu).2.deferred := by
    simp [TransmitAPDU, hctx]
  have hne := EnsureContext_ok_context true est s hest hctx
  have hw : (EnsureContext false estWorker (EnsureContext true est s).1).2.1 = true := by
    rw [EnsureContext_established false estWorker _ hne]
  have hcases := transmitRun_cases estWorker c t (EnsureContext true est s).1 readerName apdu
  rw [hlink]
  refine ⟨rfl, hw, ?_, ?_, hcases.2.1 hw, hcases.2.2.1 hw, hcases.2.2.2 hw⟩
  · by_cases hc : c.rv = SCARD_S_SUCCESS
    · by_cases ht : t.rv = SCARD_S_SUCCESS
      · obtain ⟨bytes, hb⟩ := hcases.2.2.2 hw hc ht
        rw [hb]; rfl
      · rw [hcases.2.2.1 hw hc ht]; rfl
    · rw [hcases.2.1 hw hc]; rfl
  · intro msg hmem
    by_cases hc : c.rv = SCARD_S_SUCCESS
    · by_cases ht : t.rv = SCARD_S_SUCCESS
      · obtain ⟨bytes, hb⟩ := hcases.2.2.2 hw hc ht
        rw [hb] at hmem
        simp at hmem
      · rw [hcases.2.2.1 hw hc ht] at hmem
        simp only [List.mem_singleton, Settlement.reject.injEq] at hmem
        rw [hmem]; exact append_paren_ne_empty _
    · rw [hcases.2.1 hw hc] at hmem
      simp only [List.mem_singleton, Settlement.reject.injEq] at hmem
      rw [hmem]; exact append_paren_ne_empty _

set_option maxRecDepth 100000 in
/-- Witness of C7: a transmit on `unestablishedWorld` whose context step
establishes the context and whose connect fails with `SCARD_E_UNKNOWN_READER`. -/
theorem C7_transmit_worker_outcome_witness :
    (TransmitAPDU [JsValue.str "ACS ACR122U", JsValue.buffer [0xFF, 0xCA, 0, 0, 0]]
        ⟨SCARD_S_SUCCESS, 7⟩ ⟨SCARD_E_NO_SERVICE, 0⟩ ⟨SCARD_E_UNKNOWN_READER, 0, 0⟩
        ⟨SCARD_S_SUCCESS, 0, []⟩ unestablishedWorld).2.1
      = [Settlement.reject (("Failed to connect to card in reader: " ++ "ACS ACR122U")
          ++ " (" ++ SCardErrorToString none SCARD_E_UNKNOWN_READER ++ ")")] :=
  (C7_transmit_worker_outcome ⟨SCARD_S_SUCCESS, 7⟩ ⟨SCARD_E_NO_SERVICE, 0⟩
    ⟨SCARD_E_UNKNOWN_READER, 0, 0⟩ ⟨SCARD_S_SUCCESS, 0, []⟩ unestablishedWorld "ACS ACR122U"
    [0xFF, 0xCA, 0, 0, 0] [] (by decide) (by decide)).2.2.2.2.1 (by decide)

set_option maxRecDepth 100000 in
/-- Witness of C6 on the response `04 A1 B2 90 00`. -/
theorem C6_transmit_round_trip_witness :
    (transmitRun ⟨SCARD_S_SUCCESS, 7⟩ ⟨SCARD_S_SUCCESS, 42, SCARD_PROTOCOL_T1⟩
        ⟨SCARD_S_SUCCESS, 5, [0x04, 0xA1, 0xB2, 0x90, 0x00]⟩ idleWorld "ACS ACR122U"
        [0xFF, 0xCA, 0, 0, 0]).2.deferred
      = [Settlement.resolve [0x04, 0xA1, 0xB2, 0x90, 0x00]] :=
  (C6_transmit_round_trip ⟨SCARD_S_SUCCESS, 7⟩ ⟨SCARD_S_SUCCESS, 42, SCARD_PROTOCOL_T1⟩
    ⟨SCARD_S_SUCCESS, 5, [0x04, 0xA1, 0xB2, 0x90, 0x00]⟩ idleWorld "ACS ACR122U"
    [0xFF, 0xCA, 0, 0, 0] (by decide) rfl rfl rfl (by decide)).1

theorem cstrAt_append_NUL (l rest : List Char) (h : NUL ∉ l) :
    cstrAt (l ++ NUL :: rest) = l := by
  induction l with
  | nil => simp [cstrAt, List.takeWhile]
  | cons c cs ih =>
    have hc : c ≠ NUL := fun e => h (by simp [e])
    have hcs : NUL ∉ cs := fun e => h (by simp [e])
    have ih1 := ih hcs
    have hb : (c != NUL) = true := by simp [hc]
    simp only [cstrAt] at ih1 ⊢
    simp only [List.cons_append, List.takeWhile, hb]
    exact congrArg (List.cons c) ih1

theorem encodeMultiString_length_pos (names : List String) :
    0 < (encodeMultiString names).length := by
  cases names <;> simp [encodeMultiString]

theorem walkReaders_encode (names : List String)
    (h : ∀ n ∈ names, n ≠ "" ∧ NUL ∉ n.toList) (fuel : Nat)
    (hf : (encodeMultiString names).length ≤ fuel) :
    walkReaders fuel (encodeMultiString names) = some names := by
  induction names generalizing fuel with
  | nil =>
    cases fuel with
    | zero => simp [encodeMultiString] at hf
    | succ f => simp [encodeMultiString, walkReaders]
  | cons n ns ih =>
    obtain ⟨hne, hnul⟩ := h n (by simp)
    have hns : ∀ m ∈ ns, m ≠ "" ∧ NUL ∉ m.toList := fun m hm => h m (by simp [hm])
    obtain ⟨cs⟩ := n
    cases cs with
    | nil => exact absurd rfl hne
    | cons c cs =>
      have hc : c ≠ NUL := fun e => hnul (by simp [e])
      cases fuel with
      | zero => simp [encodeMultiString] at hf
      | succ f =>
        have hstr : cstrAt (c :: (cs ++ NUL :: encodeMultiString ns)) = c :: cs :=
          cstrAt_append_NUL (c :: cs) (encodeMultiString ns) hnul
        have hlen : (encodeMultiString ns).length ≤ f := by
          simp [encodeMultiString] at hf
          omega
        have hdrop : (c :: (cs ++ NUL :: encodeMultiString ns)).drop ((c :: cs).length + 1)
            = encodeMultiString ns := by
          simp
        have henc : encodeMultiString (String.mk (c :: cs) :: ns)
            = c :: (cs ++ NUL :: encodeMultiString ns) := rfl
        rw [henc, walkReaders]
        simp only [hc, if_false, hstr, hdrop, ih hns f hlen]


/-- Claim C8: with the context available, when the subsystem reports the names
`n1..nk` (each non-empty and free of NUL) as the multi-string
`n1 NUL ... nk NUL NUL` and the buffer is allocated, listReaders returns
`[n1, ..., nk]` in order; when the subsystem reports no readers (status
no-readers-available on either call, or a reported length of at most 1) it
returns the empty sequence and raises no error. -/
theorem C8_list_readers (est : EstablishResult) (first second : ListReadersResult)
    (allocOk : Bool) (s : World) (hctx : (EnsureContext true est s).2.1 = true) :
    (∀ names : List String, (∀ n ∈ names, n ≠ "" ∧ NUL ∉ n.toList) →
      first.rv = SCARD_S_SUCCESS → first.readersLen = (encodeMultiString names).length →
      allocOk = true →
      second.rv = SCARD_S_SUCCESS → second.readersLen = (encodeMultiString names).length →
      second.written = encodeMultiString names →
      (GetAllReaders est first allocOk second s).2 = some (JsResult.value names))
    ∧ (first.rv = SCARD_E_NO_READERS_AVAILABLE →
      (GetAllReaders est first allocOk second s).2 = some (JsResult.value []))
    ∧ (first.rv = SCARD_S_SUCCESS → first.readersLen > 1 → allocOk = true →
      second.rv = SCARD_E_NO_READERS_AVAILABLE →
      (GetAllReaders est first allocOk second s).2 = some (JsResult.value []))
    ∧ (first.rv = SCARD_S_SUCCESS → first.readersLen ≤ 1 →
      (GetAllReaders est first allocOk second s).2 = some (JsResult.value [])) := by
  have hshort : first.rv = SCARD_S_SUCCESS → first.readersLen ≤ 1 →
      (GetAllReaders est first allocOk second s).2 = some (JsResult.value []) := by
    intro h1 hl
    have hnot : ¬ first.readersLen > 1 := by omega
    have hne : SCARD_S_SUCCESS ≠ SCARD_E_NO_READERS_AVAILABLE := by decide
    simp [GetAllReaders, hctx, h1, hnot, hne]
  have hne : SCARD_E_NO_READERS_AVAILABLE ≠ SCARD_S_SUCCESS := by decide
  refine ⟨?_, ?_, ?_, hshort⟩
  · intro names hn h1 hl1 ha h2 hl2 hw
    cases names with
    | nil =>
      have hlen : first.readersLen = 1 := by simpa [encodeMultiString] using hl1
      exact hshort h1 (by omega)
    | cons n ns =>
      have hlen : 1 < (encodeMultiString (n :: ns)).length := by
        have := encodeMultiString_length_pos ns
        obtain ⟨hne, _⟩ := hn n (by simp)
        obtain ⟨cs⟩ := n
        cases cs with
        | nil => exact absurd rfl hne
        | cons c cs => simp [encodeMultiString]
      have hwalk := walkReaders_encode (n :: ns) hn ((encodeMultiString (n :: ns)).length + 1)
        (Nat.le_succ _)
      simp [GetAllReaders, hctx, h1, hl1, ha, h2, hl2, hw, hlen, hwalk]
  · intro h1
    simp [GetAllReaders, hctx, h1, hne]
  · intro h1 hl ha h2
    simp [GetAllReaders, hctx, h1, hl, ha, h2, hne]


set_option maxRecDepth 100000 in
/-- Witness of C8 on two reader names. -/
theorem C8_list_readers_witness :
    (GetAllReaders ⟨SCARD_S_SUCCESS, 7⟩ ⟨SCARD_S_SUCCESS, 20, []⟩ true
        ⟨SCARD_S_SUCCESS, 20, encodeMultiString ["ACS ACR122U", "Yubico"]⟩ idleWorld).2
      = some (JsResult.value ["ACS ACR122U", "Yubico"]) :=
  (C8_list_readers ⟨SCARD_S_SUCCESS, 7⟩ ⟨SCARD_S_SUCCESS, 20, []⟩
    ⟨SCARD_S_SUCCESS, 20, encodeMultiString ["ACS ACR122U", "Yubico"]⟩ true idleWorld
    (by decide)).1 ["ACS ACR122U", "Yubico"] (by decide) rfl (by decide) rfl rfl (by decide) rfl

/-- Claim C9: context establishment is idempotent.  With the subsystem answering
the establish call the same way, a second ensure right after a first leaves the
context handle and returns the result of the first; when the context is
already established, ensure returns success, makes no establish call and leaves
the state unchanged, whatever the subsystem would answer; a failed ensure
leaves the handle `0`. -/
theorem C9_ensure_idempotent (withEnv1 withEnv2 : Bool) (est : EstablishResult) (s : World) :
    (EnsureContext withEnv2 est (EnsureContext withEnv1 est s).1).1.g_context
        = (EnsureContext withEnv1 est s).1.g_context
    ∧ (EnsureContext withEnv2 est (EnsureContext withEnv1 est s).1).2.1
        = (EnsureContext withEnv1 est s).2.1
    ∧ (∀ est2 : EstablishResult, s.g_context ≠ 0 → EnsureContext withEnv1 est2 s = (s, true, none))
    ∧ (∀ est2 : EstablishResult, (EnsureContext withEnv1 est s).1.g_context ≠ 0 →
        EnsureContext withEnv2 est2 (EnsureContext withEnv1 est s).1
          = ((EnsureContext withEnv1 est s).1, true, none))
    ∧ ((EnsureContext withEnv1 est s).2.1 = false → (EnsureContext withEnv1 est s).1.g_context = 0) := by
  have hest : ∀ (b : Bool) (e : EstablishResult) (w : World), w.g_context ≠ 0 →
      EnsureContext b e w = (w, true, none) := by
    intro b e w h
    simp [EnsureContext, h]
  refine ⟨?_, ?_, fun est2 h => hest _ est2 s h, fun est2 h => hest _ est2 _ h, ?_⟩
  · by_cases h0 : s.g_context ≠ 0
    · rw [hest _ est s h0, hest _ est s h0]
    · by_cases h1 : est.rv ≠ SCARD_S_SUCCESS
      · simp [EnsureContext, h0, h1]
      · by_cases h2 : est.hContext ≠ 0
        · simp [EnsureContext, h0, h1, h2]
        · simp [EnsureContext, h0, h1, h2]
  · by_cases h0 : s.g_context ≠ 0
    · rw [hest _ est s h0, hest _ est s h0]
    · by_cases h1 : est.rv ≠ SCARD_S_SUCCESS
      · simp [EnsureContext, h0, h1]
      · by_cases h2 : est.hContext ≠ 0
        · simp [EnsureContext, h0, h1, h2]
        · simp [EnsureContext, h0, h1, h2]
  · by_cases h0 : s.g_context ≠ 0
    · simp [EnsureContext, h0]
    · by_cases h1 : est.rv ≠ SCARD_S_SUCCESS
      · simp [EnsureContext, h0, h1]
      · simp [EnsureContext, h0, h1]

set_option maxRecDepth 100000 in
/-- Witness of C9: on the established context of `idleWorld` an ensure is a
no-op even when the subsystem would fail, and a failed ensure on
`unestablishedWorld` leaves the handle `0`. -/
theorem C9_ensure_idempotent_witness :
    EnsureContext true ⟨SCARD_E_NO_SERVICE, 0⟩ idleWorld = (idleWorld, true, none)
    ∧ (EnsureContext false ⟨SCARD_E_NO_SERVICE, 9⟩ unestablishedWorld).1.g_context = 0 :=
  ⟨(C9_ensure_idempotent true true ⟨SCARD_S_SUCCESS, 7⟩ idleWorld).2.2.1 ⟨SCARD_E_NO_SERVICE, 0⟩
      (by decide),
    (C9_ensure_idempotent false false ⟨SCARD_E_NO_SERVICE, 9⟩ unestablishedWorld).2.2.2.2
      (by decide)⟩


theorem hexDigitValue_hexDigitUpper (d : Nat) (h : d < 16) :
    hexDigitValue (hexDigitUpper d) = d := by
  interval_cases d <;> decide

theorem hexValue_append_digit (ds : List Char) (c : Char) :
    hexValue (ds ++ [c]) = 16 * hexValue ds + hexDigitValue c := by
  simp [hexValue, List.foldl_append]

/-- The digit loop writes a non-empty run of hexadecimal digits in front of the
accumulator, and the run denotes the number. -/
theorem hexUpperAux_spec (fuel n : Nat) (acc : List Char) (h : n < fuel) :
    ∃ ds, hexUpperAux fuel n acc = ds ++ acc ∧ hexValue ds = n ∧ ds ≠ []
      ∧ ∀ c ∈ ds, c ∈ "0123456789ABCDEF".toList := by
  induction fuel generalizing n acc with
  | zero => omega
  | succ f ih =>
    have hmod : n % 16 < 16 := Nat.mod_lt _ (by decide)
    by_cases h0 : n / 16 = 0
    · refine ⟨[hexDigitUpper (n % 16)], ?_, ?_, by simp, ?_⟩
      · simp [hexUpperAux, h0]
      · have hn : n % 16 = n := by omega
        have hv : hexValue [hexDigitUpper (n % 16)] = hexDigitValue (hexDigitUpper (n % 16)) := by
          simp [hexValue]
        rw [hv, hexDigitValue_hexDigitUpper _ hmod, hn]
      · intro c hc
        rw [List.mem_singleton] at hc
        rw [hc]
        exact hexDigitUpper_mem _ hmod
    · have hlt : n / 16 < f := by omega
      obtain ⟨ds, hds, hval, hne, hmem⟩ := ih (n / 16) (hexDigitUpper (n % 16) :: acc) hlt
      refine ⟨ds ++ [hexDigitUpper (n % 16)], ?_, ?_, by simp, ?_⟩
      · simp [hexUpperAux, h0, hds]
      · rw [hexValue_append_digit, hval, hexDigitValue_hexDigitUpper _ hmod]
        omega
      · intro c hc
        rw [List.mem_append, List.mem_singleton] at hc
        rcases hc with hc | hc
        · exact hmem c hc
        · rw [hc]; exact hexDigitUpper_mem _ hmod

theorem hexUpper_spec (n : Nat) :
    hexValue (hexUpper n) = n ∧ hexUpper n ≠ []
      ∧ ∀ c ∈ hexUpper n, c ∈ "0123456789ABCDEF".toList := by
  obtain ⟨ds, hds, hval, hne, hmem⟩ := hexUpperAux_spec (n + 1) n [] (Nat.lt_succ_self n)
  have h : hexUpper n = ds := by simp [hexUpper, hds]
  rw [h]
  exact ⟨hval, hne, hmem⟩

/-- Claim C10: the error translator is a total function returning a non-empty
string for every status code (whatever the platform message); when no richer
message is available (the non-Windows build, or an empty platform message) the
result is the fixed label "PC/SC Error Code: " followed by "0x" and the
uppercase hexadecimal rendering of the status code: a non-empty run of the
digits `0-9A-F` denoting the code (its 64-bit two's-complement pattern). -/
theorem C10_error_translator (rv : Int) :
    (∀ sysMsg : Option String, SCardErrorToString sysMsg rv ≠ "")
    ∧ SCardErrorToString none rv = "PC/SC Error Code: " ++ "0x" ++ hexUpperLong rv
    ∧ SCardErrorToString (some "") rv = SCardErrorToString none rv
    ∧ hexValue (hexUpperLong rv).toList = (rv % 2 ^ 64).toNat
    ∧ (hexUpperLong rv).toList ≠ []
    ∧ (∀ c ∈ (hexUpperLong rv).toList, c ∈ "0123456789ABCDEF".toList)
    ∧ (0 ≤ rv → rv < 2 ^ 64 → (hexValue (hexUpperLong rv).toList : Int) = rv)
    ∧ SCardErrorToString none SCARD_E_NO_SERVICE = "PC/SC Error Code: 0x8010001D" := by
  have hspec := hexUpper_spec (rv % 2 ^ 64).toNat
  have hgen : ∀ x : String, "PC/SC Error Code: 0x" ++ x ≠ "" := by
    intro x he
    have hl := congrArg String.length he
    rw [String.length_append] at hl
    have h0 : ("" : String).length = 0 := rfl
    have h1 : ("PC/SC Error Code: 0x" : String).length = 20 := by decide
    omega
  refine ⟨?_, rfl, rfl, hspec.1, hspec.2.1, hspec.2.2, ?_, by decide⟩
  · intro sysMsg
    cases sysMsg with
    | none => exact hgen _
    | some m =>
      unfold SCardErrorToString
      simp only
      split_ifs
      · exact append_paren_ne_empty _
      · exact hgen _
  · intro h0 h1
    have hv : hexValue (hexUpperLong rv).toList = (rv % 2 ^ 64).toNat := hspec.1
    rw [hv, Int.emod_eq_of_lt h0 h1]
    exact Int.toNat_of_nonneg h0

set_option maxRecDepth 100000 in
/-- Witness of C10 on the status `SCARD_E_CANCELLED`. -/
theorem C10_error_translator_witness :
    (hexValue (hexUpperLong SCARD_E_CANCELLED).toList : Int) = SCARD_E_CANCELLED :=
  (C10_error_translator SCARD_E_CANCELLED).2.2.2.2.2.2.1 (by decide) (by decide)

theorem loopInv_of_idle (s : World) (h : ∀ pc, s.g_pollThread ≠ PollThread.running pc)
    (hr : s.g_running = false) : loopInv s := by
  unfold loopInv
  split <;> first | exact hr | exact absurd ‹_› (h _)

theorem loopInv_idle (s : World) (hinv : loopInv s)
    (h : ∀ pc, s.g_pollThread ≠ PollThread.running pc) : s.g_running = false := by
  unfold loopInv at hinv
  split at hinv <;> first | exact hinv | exact absurd ‹_› (h _)

theorem exitLoop_loopInv (l : ListenerInfo) (s : World) (hr : s.g_running = false) :
    loopInv (exitLoop l s) := by
  simp [loopInv, exitLoop, hr]

/-- A step of the polling thread keeps the invariant. -/
theorem pollStep_loopInv (inp : PollInput) (s : World) (hinv : loopInv s)
    (hok : waitAnswerOk inp s = true) : loopInv (pollStep inp s) := by
  rcases hth : s.g_pollThread with _ | pc | _
  · have hs : pollStep inp s = s := by simp [pollStep, hth]
    rw [hs]; exact hinv
  · rcases pc with _ | ⟨l, rs⟩ | ⟨l, rs⟩ | ⟨l, rs, rv⟩
    · simp only [loopInv, hth] at hinv
      obtain ⟨al, hal, hu, he⟩ := hinv
      simp [pollStep, hth, hal, hu, he, loopInv]
    · by_cases hr : s.g_running = true
      · simp [pollStep, hth, hr, loopInv]
      · have hf : s.g_running = false := by simpa using hr
        have hs : pollStep inp s = exitLoop l s := by simp [pollStep, hth, hf]
        rw [hs]; exact exitLoop_loopInv l s hf
    · by_cases hr : s.g_running = true
      · have hrv : inp.wait.rv ≠ SCARD_E_CANCELLED := by
          simpa [waitAnswerOk, hth, hr] using hok
        simp [pollStep, hth, hr, loopInv, hrv]
      · have hf : s.g_running = false := by simpa using hr
        have hs : pollStep inp s = exitLoop l s := by simp [pollStep, hth, hf]
        rw [hs]; exact exitLoop_loopInv l s hf
    · simp only [loopInv, hth] at hinv
      have hs : pollStep inp s = classifyStep inp l rs rv s := by simp [pollStep, hth]
      rw [hs, classifyStep, if_neg hinv]
      by_cases h2 : rv = SCARD_E_TIMEOUT
      · rw [if_pos h2]; simp [loopInv]
      · rw [if_neg h2]
        by_cases h3 : rv = SCARD_E_UNKNOWN_READER ∨ rv = SCARD_E_READER_UNAVAILABLE
            ∨ rv = SCARD_E_COMM_DATA_LOST ∨ rv = SCARD_E_NO_SERVICE
        · rw [if_pos h3]; exact exitLoop_loopInv l _ rfl
        · rw [if_neg h3]
          by_cases h4 : rv = SCARD_E_INVALID_HANDLE
          · rw [if_pos h4]; exact exitLoop_loopInv l _ rfl
          · rw [if_neg h4]
            by_cases h5 : rv ≠ SCARD_S_SUCCESS
            · rw [if_pos h5]; simp [loopInv]
            · rw [if_neg h5]; simp [loopInv]
  · have hs : pollStep inp s = s := by simp [pollStep, hth]
    rw [hs]; exact hinv

/-- A call of stopListening keeps the invariant. -/
theorem StopListening_loopInv (join : PollInput) (s : World) (hinv : loopInv s) :
    loopInv (StopListening join s).1 := by
  by_cases hr : s.g_running = true
  · have hth : (StopListening join s).1.g_pollThread = PollThread.notJoinable := by
      unfold StopListening
      simp only [hr, Bool.not_true, Bool.false_eq_true, if_false]
      split
      · assumption
      · rename_i hne
        refine (joinPollThread_joined join _ ?_ (by intro h; exact hne h)).1
        split_ifs <;> rfl
    exact loopInv_of_idle _ (by intro pc; rw [hth]; exact fun h => PollThread.noConfusion h)
      (StopListening_flag join s).1
  · have hf : s.g_running = false := by simpa using hr
    have hs : StopListening join s = (s, JsResult.value ()) := by simp [StopListening, hf]
    rw [hs]; exact hinv

theorem EnsureContext_frame (withEnv : Bool) (est : EstablishResult) (s : World) :
    (EnsureContext withEnv est s).1.g_running = s.g_running
    ∧ (EnsureContext withEnv est s).1.g_pollThread = s.g_pollThread
    ∧ (EnsureContext withEnv est s).1.g_activeListener = s.g_activeListener := by
  unfold EnsureContext
  split_ifs <;> simp

theorem loopInv_congr (w s : World) (hr : w.g_running = s.g_running)
    (ht : w.g_pollThread = s.g_pollThread) (ha : w.g_activeListener = s.g_activeListener)
    (hinv : loopInv s) : loopInv w := by
  unfold loopInv at hinv ⊢
  rw [ht, hr, ha]
  exact hinv

/-- A call of startListening keeps the invariant. -/
theorem StartListening_loopInv (info : List JsValue) (env : StartEnv) (s : World)
    (hinv : loopInv s) : loopInv (StartListening info env s).1 := by
  have hfr := EnsureContext_frame true env.establish s
  have hinv1 : loopInv (EnsureContext true env.establish s).1 :=
    loopInv_congr _ s hfr.1 hfr.2.1 hfr.2.2 hinv
  unfold StartListening
  split
  · dsimp only
    by_cases h1 : (EnsureContext true env.establish s).2.1 = true
    · by_cases h2 : (EnsureContext true env.establish s).1.g_running = true
      · simpa [h1, h2] using hinv1
      · have hrun1 : (EnsureContext true env.establish s).1.g_running = false := by
          simpa using h2
        have hj : (match (EnsureContext true env.establish s).1.g_pollThread with
              | PollThread.notJoinable => (EnsureContext true env.establish s).1
              | _ => joinPollThread env.join (EnsureContext true env.establish s).1).g_pollThread
              = PollThread.notJoinable
            ∧ (match (EnsureContext true env.establish s).1.g_pollThread with
              | PollThread.notJoinable => (EnsureContext true env.establish s).1
              | _ => joinPollThread env.join (EnsureContext true env.establish s).1).g_running
              = false := by
          split
          · exact ⟨by assumption, hrun1⟩
          · rename_i hne
            have hjn := joinPollThread_joined env.join _ hrun1 (by intro h; exact hne h)
            exact ⟨hjn.1, hjn.2.1⟩
        by_cases h3 : env.tsfnUid = 0 ∨ env.tsfnError = 0
        · simp only [h1, h2, h3, Bool.not_true, Bool.false_eq_true, if_false, if_true]
          exact loopInv_of_idle _
            (by intro pc; simp only []; rw [hj.1]; exact fun h => PollThread.noConfusion h)
            hj.2
        · cases hsp : env.spawnError with
          | none =>
            simp only [h1, h2, h3, Bool.not_true, Bool.false_eq_true, if_false]
            push_neg at h3
            simp [loopInv, h3.1, h3.2]
          | some what =>
            simp only [h1, h2, h3, Bool.not_true, Bool.false_eq_true, if_false]
            exact loopInv_of_idle _
              (by intro pc; simp only []; rw [hj.1]; exact fun h => PollThread.noConfusion h)
              rfl
    · simpa [h1] using hinv1
  · exact hinv

/-- Every execution that starts with no thread and the flag false, and in which
no wait is cancelled unasked, keeps the invariant. -/
theorem execute_loopInv (acts : List Action) (s : World) (hinv : loopInv s)
    (hadm : cancelOnlyOnRequest acts s = true) : loopInv (execute acts s) := by
  induction acts generalizing s with
  | nil => exact hinv
  | cons a as ih =>
    cases a with
    | start info env =>
      exact ih _ (StartListening_loopInv info env s hinv) (by simpa [cancelOnlyOnRequest] using hadm)
    | stop join =>
      exact ih _ (StopListening_loopInv join s hinv) (by simpa [cancelOnlyOnRequest] using hadm)
    | step inp =>
      have h : waitAnswerOk inp s = true ∧ cancelOnlyOnRequest as (pollStep inp s) = true := by
        simpa [cancelOnlyOnRequest] using hadm
      exact ih _ (pollStep_loopInv inp s hinv h.1) h.2

/-- Claim C11: in every sequential execution of startListening, stopListening
and steps of the polling thread that begins with no thread and the flag false,
and in which no wait is cancelled unasked (the add-on requests a cancel only
after setting the flag false), RunningFlag is false whenever no thread is in
`PollForCard`: whichever way the thread left its loop (flag seen false after a
stop request, or a fatal status), the flag is false once it has returned.  A
started thread always finds a valid listener record, so the start-up return is
not taken, and it never classifies a cancellation, the flag check after the
wait coming first.  Consequently a later startListening whose surroundings
work is accepted, not rejected as already active, when no loop is running. -/
theorem C11_flag_false_once_loop_left (s0 : World) (acts : List Action)
    (h0 : s0.g_running = false) (ht0 : s0.g_pollThread = PollThread.notJoinable)
    (hadm : cancelOnlyOnRequest acts s0 = true) :
    ((∀ pc, (execute acts s0).g_pollThread ≠ PollThread.running pc) →
      (execute acts s0).g_running = false)
    ∧ (∀ inp : PollInput, waitAnswerOk inp (execute acts s0) = true →
        (∀ pc, (pollStep inp (execute acts s0)).g_pollThread ≠ PollThread.running pc) →
        (pollStep inp (execute acts s0)).g_running = false)
    ∧ ((execute acts s0).g_pollThread = PollThread.running PollPc.entry →
        ∀ inp : PollInput, ∃ l rs, (pollStep inp (execute acts s0)).g_pollThread
          = PollThread.running (PollPc.loopHead l rs))
    ∧ (∀ l rs rv, (execute acts s0).g_pollThread = PollThread.running (PollPc.classify l rs rv) →
        rv ≠ SCARD_E_CANCELLED)
    ∧ ((∀ pc, (execute acts s0).g_pollThread ≠ PollThread.running pc) →
        ∀ (name : String) (f g : Nat) (rest : List JsValue) (env : StartEnv),
          (EnsureContext true env.establish (execute acts s0)).2.1 = true →
          env.tsfnUid ≠ 0 → env.tsfnError ≠ 0 → env.spawnError = none →
          (StartListening (JsValue.str name :: JsValue.func f :: JsValue.func g :: rest) env
            (execute acts s0)).2 = JsResult.value ()) := by
  have hinv0 : loopInv s0 :=
    loopInv_of_idle s0 (by intro pc; rw [ht0]; exact fun h => PollThread.noConfusion h) h0
  have hinv := execute_loopInv acts s0 hinv0 hadm
  refine ⟨loopInv_idle _ hinv, ?_, ?_, ?_, ?_⟩
  · intro inp hok hidle
    exact loopInv_idle _ (pollStep_loopInv inp _ hinv hok) hidle
  · intro hth inp
    simp only [loopInv, hth] at hinv
    obtain ⟨al, hal, hu, he⟩ := hinv
    exact ⟨⟨al.readerName, al.uidCallback, al.errorCallback⟩, ⟨SCARD_STATE_UNAWARE, 0⟩,
      by simp [pollStep, hth, hal, hu, he]⟩
  · intro l rs rv hth
    simpa [loopInv, hth] using hinv
  · intro hidle name f g rest env hens hu he hsp
    have hr := loopInv_idle _ hinv hidle
    have hr1 : (EnsureContext true env.establish (execute acts s0)).1.g_running = false := by
      rw [(EnsureContext_frame true env.establish _).1]; exact hr
    simp [StartListening, hens, hr1, hu, he, hsp]


/-- A thread that has returned, or was joined, is not running. -/
theorem not_running_of_returned (s : World)
    (h : s.g_pollThread = PollThread.finished ∨ s.g_pollThread = PollThread.notJoinable) :
    ∀ pc, s.g_pollThread ≠ PollThread.running pc := by
  intro pc hpc
  rcases h with h | h <;> rw [h] at hpc <;> exact PollThread.noConfusion hpc

set_option maxRecDepth 100000 in
/-- Witness of C11: a listener is started, its thread enters the loop and
leaves it on `SCARD_E_NO_SERVICE`; the flag is false and a new start is
accepted.  In a second execution the listener is stopped while it waits. -/
theorem C11_flag_false_once_loop_left_witness :
    (execute [Action.start (startArgs "ACS ACR122U") (startEnv 1 2),
        Action.step (waitReturns SCARD_E_NO_SERVICE), Action.step (waitReturns SCARD_E_NO_SERVICE),
        Action.step (waitReturns SCARD_E_NO_SERVICE), Action.step (waitReturns SCARD_E_NO_SERVICE)]
      idleWorld).g_running = false
    ∧ (StartListening (startArgs "Second reader") (startEnv 3 4)
        (execute [Action.start (startArgs "ACS ACR122U") (startEnv 1 2),
          Action.step (waitReturns SCARD_E_NO_SERVICE), Action.step (waitReturns SCARD_E_NO_SERVICE),
          Action.step (waitReturns SCARD_E_NO_SERVICE), Action.step (waitReturns SCARD_E_NO_SERVICE)]
        idleWorld)).2 = JsResult.value ()
    ∧ (execute [Action.start (startArgs "ACS ACR122U") (startEnv 1 2),
        Action.step (waitReturns SCARD_E_TIMEOUT), Action.step (waitReturns SCARD_E_TIMEOUT),
        Action.stop (waitReturns SCARD_E_CANCELLED)] idleWorld).g_running = false :=
  ⟨(C11_flag_false_once_loop_left idleWorld _ (by decide) (by decide) (by decide)).1
      (not_running_of_returned _ (Or.inl (by decide))),
    (C11_flag_false_once_loop_left idleWorld _ (by decide) (by decide) (by decide)).2.2.2.2
      (not_running_of_returned _ (Or.inl (by decide))) "Second reader" 1 2 [] (startEnv 3 4)
      (by decide) (by decide) (by decide) (by decide),
    (C11_flag_false_once_loop_left idleWorld _ (by decide) (by decide) (by decide)).1
      (not_running_of_returned _ (Or.inr (by decide)))⟩

theorem errorDelivered_append (a b : List Event) :
    errorDelivered (a ++ b) = errorDelivered a ++ errorDelivered b := by
  induction a with
  | nil => rfl
  | cons e es ih => cases e <;> simp [errorDelivered, ih]

/-- Leaving the loop delivers nothing: only releases are added to the trace. -/
theorem exitLoop_delivers_nothing (l : ListenerInfo) (s : World) :
    uidDelivered (exitLoop l s).trace = uidDelivered s.trace
    ∧ errorDelivered (exitLoop l s).trace = errorDelivered s.trace := by
  unfold exitLoop
  simp only [uidDelivered_append, errorDelivered_append]
  split_ifs <;> simp [uidDelivered, errorDelivered]

/-- The step taken when the wait returns and the flag is still true. -/
theorem pollStep_waiting_running (inp : PollInput) (s : World) (l : ListenerInfo)
    (rs : ReaderState) (hpc : s.g_pollThread = PollThread.running (PollPc.waiting l rs))
    (hrun : s.g_running = true) :
    pollStep inp (pollStep inp s)
      = classifyStep inp l ⟨rs.dwCurrentState, inp.wait.dwEventState⟩ inp.wait.rv
          ⟨s.g_running, s.g_context,
            PollThread.running
              (PollPc.classify l ⟨rs.dwCurrentState, inp.wait.dwEventState⟩ inp.wait.rv),
            s.g_activeListener, s.trace⟩ := by
  have h1 : pollStep inp s = ⟨s.g_running, s.g_context,
      PollThread.running
        (PollPc.classify l ⟨rs.dwCurrentState, inp.wait.dwEventState⟩ inp.wait.rv),
      s.g_activeListener, s.trace⟩ := by
    simp [pollStep, hpc, hrun]
  rw [h1]
  simp [pollStep]

set_option maxRecDepth 100000 in
/-- Claim C12, refuted as stated: `SCARD_E_COMM_DATA_LOST` is none of the
statuses the claim lists as fatal, yet when the wait returns it the loop
delivers one error event, sets RunningFlag false and exits. -/
theorem C12_counterexample :
    errorDelivered (pollSteps [waitReturns SCARD_E_COMM_DATA_LOST,
        waitReturns SCARD_E_COMM_DATA_LOST, waitReturns SCARD_E_COMM_DATA_LOST,
        waitReturns SCARD_E_COMM_DATA_LOST] listeningWorld).trace
      = [(2, "Error: Reader 'ACS ACR122U' unavailable or PC/SC service stopped. PC/SC Error Code: 0x8010002F")]
    ∧ (pollSteps [waitReturns SCARD_E_COMM_DATA_LOST,
        waitReturns SCARD_E_COMM_DATA_LOST, waitReturns SCARD_E_COMM_DATA_LOST,
        waitReturns SCARD_E_COMM_DATA_LOST] listeningWorld).g_running = false
    ∧ (pollSteps [waitReturns SCARD_E_COMM_DATA_LOST,
        waitReturns SCARD_E_COMM_DATA_LOST, waitReturns SCARD_E_COMM_DATA_LOST,
        waitReturns SCARD_E_COMM_DATA_LOST] listeningWorld).g_pollThread = PollThread.finished := by
  decide

/-- Claim C12, amended: one pass of the polling loop, from the return of the
wait with RunningFlag still true.  A cancelled status exits the loop with no
callback; a timeout continues with no callback and RunningFlag still true; a
reader-unavailable, unknown-reader, comm-data-lost, service-stopped or
invalid-handle status delivers exactly one error event and no UID event, sets
RunningFlag false and exits; any other non-success status delivers no callback
and continues; success without the state-changed bit delivers no callback,
continues and leaves the tracked reader state unchanged. -/
theorem C12_wait_classification (inp : PollInput) (s : World) (l : ListenerInfo)
    (rs : ReaderState) (hpc : s.g_pollThread = PollThread.running (PollPc.waiting l rs))
    (hrun : s.g_running = true) :
    (inp.wait.rv = SCARD_E_CANCELLED →
      (pollStep inp (pollStep inp s)).g_pollThread = PollThread.finished
      ∧ uidDelivered (pollStep inp (pollStep inp s)).trace = uidDelivered s.trace
      ∧ errorDelivered (pollStep inp (pollStep inp s)).trace = errorDelivered s.trace)
    ∧ (inp.wait.rv = SCARD_E_TIMEOUT →
      (pollStep inp (pollStep inp s)).g_pollThread
        = PollThread.running (PollPc.loopHead l ⟨rs.dwCurrentState, inp.wait.dwEventState⟩)
      ∧ (pollStep inp (pollStep inp s)).trace = s.trace
      ∧ (pollStep inp (pollStep inp s)).g_running = true)
    ∧ (inp.wait.rv = SCARD_E_READER_UNAVAILABLE ∨ inp.wait.rv = SCARD_E_UNKNOWN_READER
        ∨ inp.wait.rv = SCARD_E_COMM_DATA_LOST ∨ inp.wait.rv = SCARD_E_NO_SERVICE →
      errorDelivered (pollStep inp (pollStep inp s)).trace
          = errorDelivered s.trace ++ [(l.errorCallback,
              "Error: Reader '" ++ l.readerName
                ++ "' unavailable or PC/SC service stopped. "
                ++ SCardErrorToString none inp.wait.rv)]
      ∧ uidDelivered (pollStep inp (pollStep inp s)).trace = uidDelivered s.trace
      ∧ (pollStep inp (pollStep inp s)).g_running = false
      ∧ (pollStep inp (pollStep inp s)).g_pollThread = PollThread.finished)
    ∧ (inp.wait.rv = SCARD_E_INVALID_HANDLE →
      errorDelivered (pollStep inp (pollStep inp s)).trace
          = errorDelivered s.trace ++ [(l.errorCallback,
              "Critical Error: PC/SC context became invalid. Restart might be required.")]
      ∧ uidDelivered (pollStep inp (pollStep inp s)).trace = uidDelivered s.trace
      ∧ (pollStep inp (pollStep inp s)).g_running = false
      ∧ (pollStep inp (pollStep inp s)).g_pollThread = PollThread.finished)
    ∧ (inp.wait.rv ≠ SCARD_S_SUCCESS → inp.wait.rv ≠ SCARD_E_CANCELLED →
        inp.wait.rv ≠ SCARD_E_TIMEOUT → inp.wait.rv ≠ SCARD_E_READER_UNAVAILABLE →
        inp.wait.rv ≠ SCARD_E_UNKNOWN_READER → inp.wait.rv ≠ SCARD_E_COMM_DATA_LOST →
        inp.wait.rv ≠ SCARD_E_NO_SERVICE → inp.wait.rv ≠ SCARD_E_INVALID_HANDLE →
      (pollStep inp (pollStep inp s)).g_pollThread
        = PollThread.running (PollPc.loopHead l ⟨rs.dwCurrentState, inp.wait.dwEventState⟩)
      ∧ uidDelivered (pollStep inp (pollStep inp s)).trace = uidDelivered s.trace
      ∧ errorDelivered (pollStep inp (pollStep inp s)).trace = errorDelivered s.trace
      ∧ (pollStep inp (pollStep inp s)).g_running = true)
    ∧ (inp.wait.rv = SCARD_S_SUCCESS → testBit inp.wait.dwEventState SCARD_STATE_CHANGED = false →
      (pollStep inp (pollStep inp s)).g_pollThread
        = PollThread.running (PollPc.loopHead l ⟨rs.dwCurrentState, inp.wait.dwEventState⟩)
      ∧ (pollStep inp (pollStep inp s)).trace = s.trace
      ∧ (pollStep inp (pollStep inp s)).g_running = true) := by
  rw [pollStep_waiting_running inp s l rs hpc hrun]
  refine ⟨?_, ?_, ?_, ?_, ?_, ?_⟩
  · intro h
    rw [classifyStep, if_pos h]
    exact ⟨rfl, (exitLoop_delivers_nothing l _).1, (exitLoop_delivers_nothing l _).2⟩
  · intro h
    have h1 : inp.wait.rv ≠ SCARD_E_CANCELLED := by rw [h]; decide
    rw [classifyStep, if_neg h1, if_pos h]
    exact ⟨rfl, rfl, hrun⟩
  · intro h
    have h1 : inp.wait.rv ≠ SCARD_E_CANCELLED := by
      rcases h with h | h | h | h <;> rw [h] <;> decide
    have h2 : inp.wait.rv ≠ SCARD_E_TIMEOUT := by
      rcases h with h | h | h | h <;> rw [h] <;> decide
    have h3 : inp.wait.rv = SCARD_E_UNKNOWN_READER ∨ inp.wait.rv = SCARD_E_READER_UNAVAILABLE
        ∨ inp.wait.rv = SCARD_E_COMM_DATA_LOST ∨ inp.wait.rv = SCARD_E_NO_SERVICE := by
      rcases h with h | h | h | h
      · exact Or.inr (Or.inl h)
      · exact Or.inl h
      · exact Or.inr (Or.inr (Or.inl h))
      · exact Or.inr (Or.inr (Or.inr h))
    rw [classifyStep, if_neg h1, if_neg h2, if_pos h3]
    refine ⟨?_, ?_, rfl, rfl⟩
    · rw [(exitLoop_delivers_nothing l _).2, errorDelivered_append]
      rfl
    · rw [(exitLoop_delivers_nothing l _).1, uidDelivered_append]
      simp [uidDelivered]
  · intro h
    have h1 : inp.wait.rv ≠ SCARD_E_CANCELLED := by rw [h]; decide
    have h2 : inp.wait.rv ≠ SCARD_E_TIMEOUT := by rw [h]; decide
    have h3 : ¬ (inp.wait.rv = SCARD_E_UNKNOWN_READER ∨ inp.wait.rv = SCARD_E_READER_UNAVAILABLE
        ∨ inp.wait.rv = SCARD_E_COMM_DATA_LOST ∨ inp.wait.rv = SCARD_E_NO_SERVICE) := by
      rw [h]; decide
    rw [classifyStep, if_neg h1, if_neg h2, if_neg h3, if_pos h]
    refine ⟨?_, ?_, rfl, rfl⟩
    · rw [(exitLoop_delivers_nothing l _).2, errorDelivered_append]
      rfl
    · rw [(exitLoop_delivers_nothing l _).1, uidDelivered_append]
      simp [uidDelivered]
  · intro h0 h1 h2 h3 h4 h5 h6 h7
    have h8 : ¬ (inp.wait.rv = SCARD_E_UNKNOWN_READER ∨ inp.wait.rv = SCARD_E_READER_UNAVAILABLE
        ∨ inp.wait.rv = SCARD_E_COMM_DATA_LOST ∨ inp.wait.rv = SCARD_E_NO_SERVICE) := by
      rintro (h | h | h | h)
      · exact h4 h
      · exact h3 h
      · exact h5 h
      · exact h6 h
    rw [classifyStep, if_neg h1, if_neg h2, if_neg h8, if_neg h7, if_pos h0]
    refine ⟨rfl, ?_, ?_, hrun⟩
    · simp [uidDelivered_append, uidDelivered]
    · simp [errorDelivered_append, errorDelivered]
  · intro h hbit
    have h1 : inp.wait.rv ≠ SCARD_E_CANCELLED := by rw [h]; decide
    have h2 : inp.wait.rv ≠ SCARD_E_TIMEOUT := by rw [h]; decide
    have h7 : inp.wait.rv ≠ SCARD_E_INVALID_HANDLE := by rw [h]; decide
    have h8 : ¬ (inp.wait.rv = SCARD_E_UNKNOWN_READER ∨ inp.wait.rv = SCARD_E_READER_UNAVAILABLE
        ∨ inp.wait.rv = SCARD_E_COMM_DATA_LOST ∨ inp.wait.rv = SCARD_E_NO_SERVICE) := by
      rw [h]; decide
    have h9 : ¬ inp.wait.rv ≠ SCARD_S_SUCCESS := by simp [h]
    rw [classifyStep, if_neg h1, if_neg h2, if_neg h8, if_neg h7, if_neg h9]
    simp [handleStateChange, hbit, hrun]

set_option maxRecDepth 100000 in
/-- Witness of the amended C12: the first wait of the listener of
`listeningWorld` returns `SCARD_E_NO_SERVICE`. -/
theorem C12_wait_classification_witness :
    (pollStep (waitReturns SCARD_E_NO_SERVICE)
        (pollStep (waitReturns SCARD_E_NO_SERVICE) waitingWorld)).g_running = false
    ∧ (pollStep (waitReturns SCARD_E_NO_SERVICE)
        (pollStep (waitReturns SCARD_E_NO_SERVICE) waitingWorld)).g_pollThread
          = PollThread.finished :=
  ⟨((C12_wait_classification (waitReturns SCARD_E_NO_SERVICE) waitingWorld sampleListener
      ⟨0, 0⟩ (by decide) (by decide)).2.2.1 (Or.inr (Or.inr (Or.inr rfl)))).2.2.1,
    ((C12_wait_classification (waitReturns SCARD_E_NO_SERVICE) waitingWorld sampleListener
      ⟨0, 0⟩ (by decide) (by decide)).2.2.1 (Or.inr (Or.inr (Or.inr rfl)))).2.2.2⟩

theorem GetPci_eq (protocol : Nat) : GetPci protocol = some (pciFor protocol) := by
  unfold GetPci pciFor
  split_ifs <;> rfl

/-- The four outcomes of the card block of the polling loop. -/
theorem readCard_cases (hContext : Nat) (l : ListenerInfo) (c : ConnectResult)
    (t : TransmitResult) :
    (c.rv ≠ SCARD_S_SUCCESS →
      readCard hContext l c t = (false, [Event.connect hContext l.readerName c.rv c.hCard,
        Event.errorCallback l.errorCallback
          ("Error: Failed to connect to card. " ++ SCardErrorToString none c.rv),
        Event.sleep 500]))
    ∧ (c.rv = SCARD_S_SUCCESS → t.rv ≠ SCARD_S_SUCCESS →
      readCard hContext l c t = (false, [Event.connect hContext l.readerName c.rv c.hCard,
        Event.transmit c.hCard (pciFor c.dwActiveProtocol) cmd_get_uid,
        Event.errorCallback l.errorCallback
          ("Error: Failed to read UID from card. " ++ SCardErrorToString none t.rv),
        Event.disconnect c.hCard SCARD_LEAVE_CARD]))
    ∧ (c.rv = SCARD_S_SUCCESS → t.rv = SCARD_S_SUCCESS → t.recvLength < 2 →
      readCard hContext l c t = (false, [Event.connect hContext l.readerName c.rv c.hCard,
        Event.transmit c.hCard (pciFor c.dwActiveProtocol) cmd_get_uid,
        Event.disconnect c.hCard SCARD_LEAVE_CARD]))
    ∧ (c.rv = SCARD_S_SUCCESS → t.rv = SCARD_S_SUCCESS → 2 ≤ t.recvLength →
      readCard hContext l c t = (true, [Event.connect hContext l.readerName c.rv c.hCard,
        Event.transmit c.hCard (pciFor c.dwActiveProtocol) cmd_get_uid,
        Event.uidCallback l.uidCallback
          (String.mk (uidStream (fillBuffer (zeroBuffer 260) t.written) (t.recvLength - 2))),
        Event.sleep 1500,
        Event.disconnect c.hCard SCARD_LEAVE_CARD])) := by
  have hp := GetPci_eq c.dwActiveProtocol
  refine ⟨?_, ?_, ?_, ?_⟩
  · intro hc
    simp [readCard, hc]
  · intro hc ht
    simp [readCard, hc, hp, ht]
  · intro hc ht h2
    have h2n : ¬ 2 ≤ t.recvLength := by omega
    simp [readCard, hc, hp, ht, h2n, SCARD_S_SUCCESS]
  · intro hc ht h2
    simp [readCard, hc, hp, ht, h2]

/-- The pass of the loop that finds a card present and not mute appends the
calls of the card block to the trace and returns to the loop head. -/
theorem pollStep_card_present (inp : PollInput) (s : World) (l : ListenerInfo)
    (rs : ReaderState)
    (hpc : s.g_pollThread = PollThread.running (PollPc.classify l rs SCARD_S_SUCCESS))
    (hchg : testBit rs.dwEventState SCARD_STATE_CHANGED = true)
    (hpres : testBit rs.dwEventState SCARD_STATE_PRESENT = true)
    (hmute : testBit rs.dwEventState SCARD_STATE_MUTE = false) :
    (pollStep inp s).trace = s.trace ++ (readCard s.g_context l inp.connect inp.transmit).2 := by
  simp [pollStep, hpc, classifyStep, handleStateChange, hchg, hpres, hmute,
    SCARD_S_SUCCESS, SCARD_E_CANCELLED, SCARD_E_TIMEOUT, SCARD_E_UNKNOWN_READER,
    SCARD_E_READER_UNAVAILABLE, SCARD_E_COMM_DATA_LOST, SCARD_E_NO_SERVICE,
    SCARD_E_INVALID_HANDLE]

theorem containsText_suffix (a b : String) : containsText (a ++ b) b := by
  unfold containsText
  exact ⟨a.toList, [], by simp⟩

theorem containsText_paren (a b : String) : containsText (a ++ " (" ++ b ++ ")") b := by
  unfold containsText
  exact ⟨(a ++ " (").toList, (")" : String).toList, by simp⟩

set_option maxRecDepth 100000 in
/-- Claim C13, refuted as stated: for the fatal wait status
`SCARD_E_INVALID_HANDLE` the message sent to the error callback is a fixed text
in which the translator's string for that status does not occur. -/
theorem C13_counterexample :
    errorDelivered (pollSteps [waitReturns SCARD_E_INVALID_HANDLE,
        waitReturns SCARD_E_INVALID_HANDLE, waitReturns SCARD_E_INVALID_HANDLE,
        waitReturns SCARD_E_INVALID_HANDLE] listeningWorld).trace
      = [(2, "Critical Error: PC/SC context became invalid. Restart might be required.")]
    ∧ ¬ containsText "Critical Error: PC/SC context became invalid. Restart might be required."
        (SCardErrorToString none SCARD_E_INVALID_HANDLE) := by
  refine ⟨by decide, ?_⟩
  intro h
  have hsub := List.IsInfix.subset h
  have h0 : '0' ∈ (SCardErrorToString none SCARD_E_INVALID_HANDLE).toList := by decide
  have h1 : '0' ∉
      ("Critical Error: PC/SC context became invalid. Restart might be required." : String).toList := by
    decide
  exact h1 (hsub h0)

theorem ThrowNapiError_contains (message : String) (rv : Int) (h : rv ≠ SCARD_S_SUCCESS) :
    containsText (ThrowNapiError message rv) (SCardErrorToString none rv) := by
  have h0 : rv ≠ 0 := h
  rw [ThrowNapiError, if_pos h0]
  exact containsText_paren _ _

theorem EnsureContext_failure (est : EstablishResult) (s : World)
    (h : (EnsureContext true est s).2.1 = false) :
    est.rv ≠ SCARD_S_SUCCESS
    ∧ (EnsureContext true est s).2.2
        = some (ThrowNapiError "Failed to establish PC/SC context" est.rv) := by
  unfold EnsureContext at h ⊢
  by_cases h0 : s.g_context ≠ 0
  · simp [h0] at h
  · by_cases h1 : est.rv ≠ SCARD_S_SUCCESS
    · simp [h0, h1]
    · simp [h0, h1] at h

/-- The pass of the loop that classifies a fatal wait status other than
invalid-handle: the message sent to the error callback. -/
theorem classifyStep_fatal (inp : PollInput) (s : World) (l : ListenerInfo) (rs : ReaderState)
    (rv : Int)
    (hrv : rv = SCARD_E_UNKNOWN_READER ∨ rv = SCARD_E_READER_UNAVAILABLE
      ∨ rv = SCARD_E_COMM_DATA_LOST ∨ rv = SCARD_E_NO_SERVICE) :
    errorDelivered (classifyStep inp l rs rv s).trace
      = errorDelivered s.trace ++ [(l.errorCallback,
          "Error: Reader '" ++ l.readerName ++ "' unavailable or PC/SC service stopped. "
            ++ SCardErrorToString none rv)] := by
  have h1 : rv ≠ SCARD_E_CANCELLED := by
    rcases hrv with h | h | h | h <;> rw [h] <;> decide
  have h2 : rv ≠ SCARD_E_TIMEOUT := by
    rcases hrv with h | h | h | h <;> rw [h] <;> decide
  rw [classifyStep, if_neg h1, if_neg h2, if_pos hrv,
    (exitLoop_delivers_nothing l _).2, errorDelivered_append]
  rfl

/-- Claim C13, amended: every error message surfaced because a subsystem call
failed contains the translator's string for the failing status code, namely
the listener's error callbacks for the fatal wait statuses other than
invalid-handle, for a connect failure and for a read-UID transmit failure, the
transmit rejections after a connect or transmit failure, and the exceptions of
listReaders and of context establishment (also when raised through
startListening or transmit).  By design the error callback for the
invalid-handle wait status carries a fixed text without translator string, and
the worker's rejection for an unavailable context carries the translation of
the fixed status `SCARD_E_INVALID_HANDLE`. -/
theorem C13_messages_carry_status_text (inp : PollInput) (s : World) (l : ListenerInfo)
    (rs : ReaderState) (est : EstablishResult) (c : ConnectResult) (t : TransmitResult) :
    (∀ rv, rv = SCARD_E_UNKNOWN_READER ∨ rv = SCARD_E_READER_UNAVAILABLE
        ∨ rv = SCARD_E_COMM_DATA_LOST ∨ rv = SCARD_E_NO_SERVICE →
      s.g_pollThread = PollThread.running (PollPc.classify l rs rv) →
      ∃ msg, errorDelivered (pollStep inp s).trace = errorDelivered s.trace ++ [(l.errorCallback, msg)]
        ∧ containsText msg (SCardErrorToString none rv))
    ∧ (s.g_pollThread = PollThread.running (PollPc.classify l rs SCARD_E_INVALID_HANDLE) →
      errorDelivered (pollStep inp s).trace = errorDelivered s.trace ++ [(l.errorCallback,
        "Critical Error: PC/SC context became invalid. Restart might be required.")])
    ∧ (s.g_pollThread = PollThread.running (PollPc.classify l rs SCARD_S_SUCCESS) →
        testBit rs.dwEventState SCARD_STATE_CHANGED = true →
        testBit rs.dwEventState SCARD_STATE_PRESENT = true →
        testBit rs.dwEventState SCARD_STATE_MUTE = false →
      (inp.connect.rv ≠ SCARD_S_SUCCESS →
        ∃ msg, errorDelivered (pollStep inp s).trace
            = errorDelivered s.trace ++ [(l.errorCallback, msg)]
          ∧ containsText msg (SCardErrorToString none inp.connect.rv))
      ∧ (inp.connect.rv = SCARD_S_SUCCESS → inp.transmit.rv ≠ SCARD_S_SUCCESS →
        ∃ msg, errorDelivered (pollStep inp s).trace
            = errorDelivered s.trace ++ [(l.errorCallback, msg)]
          ∧ containsText msg (SCardErrorToString none inp.transmit.rv)))
    ∧ (∀ readerName apdu, (EnsureContext false est s).2.1 = true →
      (c.rv ≠ SCARD_S_SUCCESS →
        ∃ msg, (transmitRun est c t s readerName apdu).2.deferred = [Settlement.reject msg]
          ∧ containsText msg (SCardErrorToString none c.rv))
      ∧ (c.rv = SCARD_S_SUCCESS → t.rv ≠ SCARD_S_SUCCESS →
        ∃ msg, (transmitRun est c t s readerName apdu).2.deferred = [Settlement.reject msg]
          ∧ containsText msg (SCardErrorToString none t.rv)))
    ∧ (∀ readerName apdu, (EnsureContext false est s).2.1 = false →
      ∃ msg, (transmitRun est c t s readerName apdu).2.deferred = [Settlement.reject msg]
        ∧ containsText msg (SCardErrorToString none SCARD_E_INVALID_HANDLE))
    ∧ ((EnsureContext true est s).2.1 = false →
      ∃ msg, (EnsureContext true est s).2.2 = some msg
        ∧ containsText msg (SCardErrorToString none est.rv)
        ∧ (∀ first allocOk second,
            (GetAllReaders est first allocOk second s).2 = some (JsResult.throws msg))
        ∧ (∀ name f g rest env, env.establish = est →
            (StartListening (JsValue.str name :: JsValue.func f :: JsValue.func g :: rest)
              env s).2 = JsResult.throws msg)
        ∧ (∀ name apdu rest estWorker,
            (TransmitAPDU (JsValue.str name :: JsValue.buffer apdu :: rest) est estWorker c t s).2.2
              = some msg))
    ∧ (∀ first allocOk second, (EnsureContext true est s).2.1 = true →
      (first.rv ≠ SCARD_S_SUCCESS → first.rv ≠ SCARD_E_NO_READERS_AVAILABLE →
        ∃ msg, (GetAllReaders est first allocOk second s).2 = some (JsResult.throws msg)
          ∧ containsText msg (SCardErrorToString none first.rv))
      ∧ (first.rv = SCARD_S_SUCCESS → first.readersLen > 1 → allocOk = true →
          second.rv ≠ SCARD_S_SUCCESS → second.rv ≠ SCARD_E_NO_READERS_AVAILABLE →
        ∃ msg, (GetAllReaders est first allocOk second s).2 = some (JsResult.throws msg)
          ∧ containsText msg (SCardErrorToString none second.rv))) := by
  refine ⟨?_, ?_, ?_, ?_, ?_, ?_, ?_⟩
  · intro rv hrv hpc
    have hstep : pollStep inp s = classifyStep inp l rs rv s := by
      simp [pollStep, hpc]
    have h := classifyStep_fatal inp s l rs rv hrv
    rw [← hstep] at h
    exact ⟨_, h, containsText_suffix _ _⟩
  · intro hpc
    have h1 : SCARD_E_INVALID_HANDLE ≠ SCARD_E_CANCELLED := by decide
    have h2 : SCARD_E_INVALID_HANDLE ≠ SCARD_E_TIMEOUT := by decide
    have h3 : ¬ (SCARD_E_INVALID_HANDLE = SCARD_E_UNKNOWN_READER
        ∨ SCARD_E_INVALID_HANDLE = SCARD_E_READER_UNAVAILABLE
        ∨ SCARD_E_INVALID_HANDLE = SCARD_E_COMM_DATA_LOST
        ∨ SCARD_E_INVALID_HANDLE = SCARD_E_NO_SERVICE) := by decide
    have hstep : pollStep inp s = classifyStep inp l rs SCARD_E_INVALID_HANDLE s := by
      simp [pollStep, hpc]
    rw [hstep, classifyStep, if_neg h1, if_neg h2, if_neg h3, if_pos rfl,
      (exitLoop_delivers_nothing l _).2, errorDelivered_append]
    rfl
  · intro hpc hchg hpres hmute
    have htr := pollStep_card_present inp s l rs hpc hchg hpres hmute
    have hcases := readCard_cases s.g_context l inp.connect inp.transmit
    constructor
    · intro hc
      have h : errorDelivered (pollStep inp s).trace = errorDelivered s.trace
          ++ [(l.errorCallback,
            "Error: Failed to connect to card. " ++ SCardErrorToString none inp.connect.rv)] := by
        rw [htr, hcases.1 hc, errorDelivered_append]
        rfl
      exact ⟨_, h, containsText_suffix _ _⟩
    · intro hc ht
      have h : errorDelivered (pollStep inp s).trace = errorDelivered s.trace
          ++ [(l.errorCallback,
            "Error: Failed to read UID from card. " ++ SCardErrorToString none inp.transmit.rv)] := by
        rw [htr, hcases.2.1 hc ht, errorDelivered_append]
        rfl
      exact ⟨_, h, containsText_suffix _ _⟩
  · intro readerName apdu hctx
    have hcases := transmitRun_cases est c t s readerName apdu
    exact ⟨fun hc => ⟨_, hcases.2.1 hctx hc, containsText_paren _ _⟩,
      fun hc ht => ⟨_, hcases.2.2.1 hctx hc ht, containsText_paren _ _⟩⟩
  · intro readerName apdu hctx
    exact ⟨_, (transmitRun_cases est c t s readerName apdu).1 hctx, containsText_paren _ _⟩
  · intro hctx
    obtain ⟨hrv, hmsg⟩ := EnsureContext_failure est s hctx
    refine ⟨_, hmsg, ThrowNapiError_contains _ _ hrv, ?_, ?_, ?_⟩
    · intro first allocOk second
      simp [GetAllReaders, hctx, hmsg]
    · intro name f g rest env henv
      simp [StartListening, henv, hctx, hmsg]
    · intro name apdu rest estWorker
      simp [TransmitAPDU, hctx, hmsg]
  · intro first allocOk second hctx
    constructor
    · intro h1 h2
      have h : (GetAllReaders est first allocOk second s).2
          = some (JsResult.throws (ThrowNapiError "Failed to list readers" first.rv)) := by
        simp [GetAllReaders, hctx, h1, h2]
      exact ⟨_, h, ThrowNapiError_contains "Failed to list readers" first.rv h1⟩
    · intro h1 hl ha h2 h3
      have h : (GetAllReaders est first allocOk second s).2
          = some (JsResult.throws (ThrowNapiError "Failed to list readers" second.rv)) := by
        simp [GetAllReaders, hctx, h1, hl, ha, h2, h3]
      exact ⟨_, h, ThrowNapiError_contains "Failed to list readers" second.rv h2⟩

set_option maxRecDepth 100000 in
/-- Witness of the amended C13: the wait of the listener of `listeningWorld`
returned `SCARD_E_NO_SERVICE`. -/
theorem C13_messages_carry_status_text_witness :
    ∃ msg, errorDelivered (pollStep (waitReturns SCARD_E_NO_SERVICE)
          (classifyingWorld SCARD_E_NO_SERVICE)).trace
        = errorDelivered (classifyingWorld SCARD_E_NO_SERVICE).trace ++ [(2, msg)]
      ∧ containsText msg (SCardErrorToString none SCARD_E_NO_SERVICE) :=
  (C13_messages_carry_status_text (waitReturns SCARD_E_NO_SERVICE)
    (classifyingWorld SCARD_E_NO_SERVICE) sampleListener ⟨0, 0⟩ ⟨SCARD_S_SUCCESS, 7⟩
    ⟨SCARD_S_SUCCESS, 42, SCARD_PROTOCOL_T1⟩ ⟨SCARD_S_SUCCESS, 0, []⟩).1
    SCARD_E_NO_SERVICE (Or.inr (Or.inr (Or.inr rfl))) (by decide)

theorem cardEvents_append (a b : List Event) :
    cardEvents (a ++ b) = cardEvents a ++ cardEvents b := by
  induction a with
  | nil => rfl
  | cons e es ih => cases e <;> simp [cardEvents, ih]

theorem exitLoop_cardEvents (l : ListenerInfo) (s : World) :
    cardEvents (exitLoop l s).trace = cardEvents s.trace := by
  unfold exitLoop
  simp only [cardEvents_append]
  split_ifs <;> simp [cardEvents]

/-- The connects and disconnects of the card block: a failed connect stands
alone, a successful one is followed by one disconnect of its handle, whatever
the transmit returned. -/
theorem readCard_cardEvents (hContext : Nat) (l : ListenerInfo) (c : ConnectResult)
    (t : TransmitResult) :
    (c.rv ≠ SCARD_S_SUCCESS →
      cardEvents (readCard hContext l c t).2
        = [Event.connect hContext l.readerName c.rv c.hCard])
    ∧ (c.rv = SCARD_S_SUCCESS →
      cardEvents (readCard hContext l c t).2
        = [Event.connect hContext l.readerName c.rv c.hCard,
            Event.disconnect c.hCard SCARD_LEAVE_CARD]
      ∧ (readCard hContext l c t).2.getLast? = some (Event.disconnect c.hCard SCARD_LEAVE_CARD)) := by
  have hcases := readCard_cases hContext l c t
  constructor
  · intro hc
    rw [hcases.1 hc]
    rfl
  · intro hc
    by_cases ht : t.rv = SCARD_S_SUCCESS
    · by_cases h2 : 2 ≤ t.recvLength
      · rw [hcases.2.2.2 hc ht h2]
        exact ⟨rfl, rfl⟩
      · rw [hcases.2.2.1 hc ht (by omega)]
        exact ⟨rfl, rfl⟩
    · rw [hcases.2.1 hc ht]
      exact ⟨rfl, rfl⟩

theorem classifyStep_cardEvents (inp : PollInput) (l : ListenerInfo) (rs : ReaderState)
    (rv : Int) (s : World) :
    cardEvents (classifyStep inp l rs rv s).trace = cardEvents s.trace
    ∨ cardEvents (classifyStep inp l rs rv s).trace
        = cardEvents s.trace ++ cardEvents (readCard s.g_context l inp.connect inp.transmit).2 := by
  unfold classifyStep
  by_cases h1 : rv = SCARD_E_CANCELLED
  · rw [if_pos h1]; exact Or.inl (exitLoop_cardEvents l s)
  · rw [if_neg h1]
    by_cases h2 : rv = SCARD_E_TIMEOUT
    · rw [if_pos h2]; exact Or.inl rfl
    · rw [if_neg h2]
      by_cases h3 : rv = SCARD_E_UNKNOWN_READER ∨ rv = SCARD_E_READER_UNAVAILABLE
          ∨ rv = SCARD_E_COMM_DATA_LOST ∨ rv = SCARD_E_NO_SERVICE
      · rw [if_pos h3, exitLoop_cardEvents]
        left
        simp [cardEvents_append, cardEvents]
      · rw [if_neg h3]
        by_cases h4 : rv = SCARD_E_INVALID_HANDLE
        · rw [if_pos h4, exitLoop_cardEvents]
          left
          simp [cardEvents_append, cardEvents]
        · rw [if_neg h4]
          by_cases h5 : rv ≠ SCARD_S_SUCCESS
          · rw [if_pos h5]
            left
            simp [cardEvents_append, cardEvents]
          · rw [if_neg h5]
            simp only [cardEvents_append]
            unfold handleStateChange
            split_ifs
            · right; rfl
            · left; simp [cardEvents]
            · left; simp [cardEvents]

theorem pollStep_cardEvents (inp : PollInput) (s : World) :
    cardEvents (pollStep inp s).trace = cardEvents s.trace
    ∨ ∃ l : ListenerInfo, cardEvents (pollStep inp s).trace
        = cardEvents s.trace ++ cardEvents (readCard s.g_context l inp.connect inp.transmit).2 := by
  unfold pollStep
  split
  · left
    split
    · rfl
    · split_ifs <;> rfl
  · left
    split_ifs
    · simp [cardEvents_append, cardEvents]
    · exact exitLoop_cardEvents _ s
  · left
    split_ifs
    · exact exitLoop_cardEvents _ s
    · rfl
  · rename_i l rs rv _
    rcases classifyStep_cardEvents inp l rs rv s with h | h
    · exact Or.inl h
    · exact Or.inr ⟨l, h⟩
  · exact Or.inl rfl
  · exact Or.inl rfl

theorem EnsureContext_cardEvents (withEnv : Bool) (est : EstablishResult) (s : World) :
    cardEvents (EnsureContext withEnv est s).1.trace = cardEvents s.trace := by
  unfold EnsureContext
  split_ifs <;> simp [cardEvents_append, cardEvents]

/-- The connects and disconnects of one execution of the transmit worker. -/
theorem Execute_cardEvents (est : EstablishResult) (c : ConnectResult) (t : TransmitResult)
    (s : World) (w : TransmitWorker) :
    ((EnsureContext false est s).2.1 = false →
      cardEvents (TransmitWorker.Execute est c t s w).1.trace = cardEvents s.trace)
    ∧ ((EnsureContext false est s).2.1 = true → c.rv ≠ SCARD_S_SUCCESS →
      cardEvents (TransmitWorker.Execute est c t s w).1.trace = cardEvents s.trace ++
        [Event.connect (EnsureContext false est s).1.g_context w.readerName c.rv c.hCard])
    ∧ ((EnsureContext false est s).2.1 = true → c.rv = SCARD_S_SUCCESS → c.hCard ≠ 0 →
      cardEvents (TransmitWorker.Execute est c t s w).1.trace = cardEvents s.trace ++
        [Event.connect (EnsureContext false est s).1.g_context w.readerName c.rv c.hCard,
          Event.disconnect c.hCard SCARD_LEAVE_CARD]
      ∧ (TransmitWorker.Execute est c t s w).1.trace.getLast?
          = some (Event.disconnect c.hCard SCARD_LEAVE_CARD)) := by
  have hp := GetPci_eq c.dwActiveProtocol
  have he := EnsureContext_cardEvents false est s
  refine ⟨?_, ?_, ?_⟩
  · intro hctx
    simp [TransmitWorker.Execute, hctx, he]
  · intro hctx hc
    simp [TransmitWorker.Execute, hctx, hc, cardEvents_append, he, cardEvents]
  · intro hctx hc h0
    by_cases ht : t.rv = SCARD_S_SUCCESS
    · simp [TransmitWorker.Execute, hctx, hc, hp, ht, guardRelease, h0, cardEvents_append, he,
        cardEvents]
    · simp [TransmitWorker.Execute, hctx, hc, hp, ht, guardRelease, h0, cardEvents_append, he,
        cardEvents]

/-- Claim C14: guaranteed disconnect.  Every step of the polling thread adds to
the trace either no connect and no disconnect, or one failed connect and no
disconnect, or one successful connect followed by exactly one disconnect of
its handle with the leave-card disposition, which is the last call of the pass,
whatever the transmit returned.  Every execution of the transmit worker adds
no connect when the context is unavailable, one failed connect and no
disconnect, or one successful connect (of a non-null handle) followed by
exactly one disconnect of that handle with the leave-card disposition as its
last call, whatever the transmit returned. -/
theorem C14_guaranteed_disconnect (inp : PollInput) (s : World) (est : EstablishResult)
    (c : ConnectResult) (t : TransmitResult) (readerName : String) (apdu : List SCardByte) :
    (cardEvents (pollStep inp s).trace = cardEvents s.trace
      ∨ (∃ l : ListenerInfo, inp.connect.rv ≠ SCARD_S_SUCCESS
          ∧ cardEvents (pollStep inp s).trace = cardEvents s.trace
              ++ [Event.connect s.g_context l.readerName inp.connect.rv inp.connect.hCard])
      ∨ (∃ l : ListenerInfo, inp.connect.rv = SCARD_S_SUCCESS
          ∧ cardEvents (pollStep inp s).trace = cardEvents s.trace
              ++ [Event.connect s.g_context l.readerName inp.connect.rv inp.connect.hCard,
                  Event.disconnect inp.connect.hCard SCARD_LEAVE_CARD]))
    ∧ (∀ (l : ListenerInfo) (rs : ReaderState),
        s.g_pollThread = PollThread.running (PollPc.classify l rs SCARD_S_SUCCESS) →
        testBit rs.dwEventState SCARD_STATE_CHANGED = true →
        testBit rs.dwEventState SCARD_STATE_PRESENT = true →
        testBit rs.dwEventState SCARD_STATE_MUTE = false →
      (inp.connect.rv ≠ SCARD_S_SUCCESS →
        cardEvents (pollStep inp s).trace = cardEvents s.trace
          ++ [Event.connect s.g_context l.readerName inp.connect.rv inp.connect.hCard])
      ∧ (inp.connect.rv = SCARD_S_SUCCESS →
        cardEvents (pollStep inp s).trace = cardEvents s.trace
          ++ [Event.connect s.g_context l.readerName inp.connect.rv inp.connect.hCard,
              Event.disconnect inp.connect.hCard SCARD_LEAVE_CARD]
        ∧ (pollStep inp s).trace.getLast?
            = some (Event.disconnect inp.connect.hCard SCARD_LEAVE_CARD)))
    ∧ ((EnsureContext false est s).2.1 = false →
      cardEvents (transmitRun est c t s readerName apdu).1.trace = cardEvents s.trace)
    ∧ ((EnsureContext false est s).2.1 = true → c.rv ≠ SCARD_S_SUCCESS →
      cardEvents (transmitRun est c t s readerName apdu).1.trace = cardEvents s.trace ++
        [Event.connect (EnsureContext false est s).1.g_context readerName c.rv c.hCard])
    ∧ ((EnsureContext false est s).2.1 = true → c.rv = SCARD_S_SUCCESS → c.hCard ≠ 0 →
      cardEvents (transmitRun est c t s readerName apdu).1.trace = cardEvents s.trace ++
        [Event.connect (EnsureContext false est s).1.g_context readerName c.rv c.hCard,
          Event.disconnect c.hCard SCARD_LEAVE_CARD]
      ∧ (transmitRun est c t s readerName apdu).1.trace.getLast?
          = some (Event.disconnect c.hCard SCARD_LEAVE_CARD)) := by
  have hw := Execute_cardEvents est c t s (TransmitWorker.create readerName apdu)
  refine ⟨?_, ?_, hw.1, hw.2.1, hw.2.2⟩
  · rcases pollStep_cardEvents inp s with h | ⟨l, h⟩
    · exact Or.inl h
    · by_cases hc : inp.connect.rv = SCARD_S_SUCCESS
      · right; right
        refine ⟨l, hc, ?_⟩
        rw [h, ((readCard_cardEvents s.g_context l inp.connect inp.transmit).2 hc).1]
      · right; left
        refine ⟨l, hc, ?_⟩
        rw [h, (readCard_cardEvents s.g_context l inp.connect inp.transmit).1 hc]
  · intro l rs hpc hchg hpres hmute
    have htr := pollStep_card_present inp s l rs hpc hchg hpres hmute
    have hr := readCard_cardEvents s.g_context l inp.connect inp.transmit
    constructor
    · intro hc
      rw [htr, cardEvents_append, hr.1 hc]
    · intro hc
      refine ⟨by rw [htr, cardEvents_append, (hr.2 hc).1], ?_⟩
      rw [htr]
      have hne : (readCard s.g_context l inp.connect inp.transmit).2 ≠ [] := by
        intro h0
        have := (hr.2 hc).2
        rw [h0] at this
        exact Option.noConfusion this
      rw [List.getLast?_append_of_ne_nil _ hne]
      exact (hr.2 hc).2

set_option maxRecDepth 100000 in
/-- Witness of C14: a worker whose connect succeeds with handle 42 and whose
transmit fails. -/
theorem C14_guaranteed_disconnect_witness :
    cardEvents (transmitRun ⟨SCARD_S_SUCCESS, 7⟩ ⟨SCARD_S_SUCCESS, 42, SCARD_PROTOCOL_T1⟩
        ⟨SCARD_E_NO_SERVICE, 0, []⟩ idleWorld "ACS ACR122U" [0xFF, 0xCA, 0, 0, 0]).1.trace
      = cardEvents idleWorld.trace ++
        [Event.connect 7 "ACS ACR122U" SCARD_S_SUCCESS 42,
          Event.disconnect 42 SCARD_LEAVE_CARD] :=
  ((C14_guaranteed_disconnect (waitReturns SCARD_E_TIMEOUT) idleWorld ⟨SCARD_S_SUCCESS, 7⟩
    ⟨SCARD_S_SUCCESS, 42, SCARD_PROTOCOL_T1⟩ ⟨SCARD_E_NO_SERVICE, 0, []⟩ "ACS ACR122U"
    [0xFF, 0xCA, 0, 0, 0]).2.2.2.2 (by decide) rfl (by decide)).1

theorem released_append (a b : List Event) :
    released (a ++ b) = released a ++ released b := by
  induction a with
  | nil => rfl
  | cons e es ih => cases e <;> simp [released, ih]

theorem exitLoop_released (l : ListenerInfo) (s : World) :
    released (exitLoop l s).trace = released s.trace ++ owed l := by
  unfold exitLoop owed
  simp only [released_append, List.append_assoc]
  split_ifs <;> simp [released]

theorem readCard_released (hContext : Nat) (l : ListenerInfo) (c : ConnectResult)
    (t : TransmitResult) : released (readCard hContext l c t).2 = [] := by
  have hcases := readCard_cases hContext l c t
  by_cases hc : c.rv = SCARD_S_SUCCESS
  · by_cases ht : t.rv = SCARD_S_SUCCESS
    · by_cases h2 : 2 ≤ t.recvLength
      · rw [hcases.2.2.2 hc ht h2]; rfl
      · rw [hcases.2.2.1 hc ht (by omega)]; rfl
    · rw [hcases.2.1 hc ht]; rfl
  · rw [hcases.1 hc]; rfl

theorem handleStateChange_released (hContext : Nat) (l : ListenerInfo) (rs : ReaderState)
    (c : ConnectResult) (t : TransmitResult) :
    released (handleStateChange hContext l rs c t).2 = [] := by
  unfold handleStateChange
  split_ifs
  · exact readCard_released hContext l c t
  · rfl
  · rfl

/-- A classification either returns to the loop head without a release, or
leaves the loop and makes the releases owed for the listener copy. -/
theorem classifyStep_released (inp : PollInput) (l : ListenerInfo) (rs : ReaderState)
    (rv : Int) (s : World) :
    ((∃ rs1, (classifyStep inp l rs rv s).g_pollThread
          = PollThread.running (PollPc.loopHead l rs1))
        ∧ released (classifyStep inp l rs rv s).trace = released s.trace)
    ∨ ((classifyStep inp l rs rv s).g_pollThread = PollThread.finished
        ∧ released (classifyStep inp l rs rv s).trace = released s.trace ++ owed l) := by
  unfold classifyStep
  by_cases h1 : rv = SCARD_E_CANCELLED
  · rw [if_pos h1]; exact Or.inr ⟨rfl, exitLoop_released l s⟩
  · rw [if_neg h1]
    by_cases h2 : rv = SCARD_E_TIMEOUT
    · rw [if_pos h2]; exact Or.inl ⟨⟨_, rfl⟩, rfl⟩
    · rw [if_neg h2]
      by_cases h3 : rv = SCARD_E_UNKNOWN_READER ∨ rv = SCARD_E_READER_UNAVAILABLE
          ∨ rv = SCARD_E_COMM_DATA_LOST ∨ rv = SCARD_E_NO_SERVICE
      · rw [if_pos h3]
        refine Or.inr ⟨rfl, ?_⟩
        rw [exitLoop_released]
        simp [released_append, released]
      · rw [if_neg h3]
        by_cases h4 : rv = SCARD_E_INVALID_HANDLE
        · rw [if_pos h4]
          refine Or.inr ⟨rfl, ?_⟩
          rw [exitLoop_released]
          simp [released_append, released]
        · rw [if_neg h4]
          by_cases h5 : rv ≠ SCARD_S_SUCCESS
          · rw [if_pos h5]
            refine Or.inl ⟨⟨_, rfl⟩, ?_⟩
            simp [released_append, released]
          · rw [if_neg h5]
            refine Or.inl ⟨⟨_, rfl⟩, ?_⟩
            simp [released_append, handleStateChange_released]

/-- One step of the polling thread either makes no release and owes what it
owed, or is the step at which the thread returns, making exactly the releases
it owed. -/
theorem pollStep_released (inp : PollInput) (s : World) :
    (released (pollStep inp s).trace = released s.trace
        ∧ pendingRelease (pollStep inp s) = pendingRelease s)
    ∨ ((pollStep inp s).g_pollThread = PollThread.finished
        ∧ released (pollStep inp s).trace = released s.trace ++ pendingRelease s) := by
  rcases hth : s.g_pollThread with _ | pc | _
  · left; simp [pollStep, hth]
  · rcases pc with _ | ⟨l, rs⟩ | ⟨l, rs⟩ | ⟨l, rs, rv⟩
    · left
      rcases hal : s.g_activeListener with _ | al
      · simp [pollStep, hth, hal, pendingRelease]
      · by_cases hv : al.uidCallback = 0 ∨ al.errorCallback = 0
        · simp [pollStep, hth, hal, hv, pendingRelease]
        · simp [pollStep, hth, hal, hv, pendingRelease]
    · by_cases hr : s.g_running = true
      · left
        simp [pollStep, hth, hr, pendingRelease, released_append, released]
      · right
        have hs : pollStep inp s = exitLoop l s := by simp [pollStep, hth, hr]
        rw [hs, exitLoop_released]
        simp [exitLoop, pendingRelease, hth]
    · by_cases hr : s.g_running = true
      · left
        simp [pollStep, hth, hr, pendingRelease]
      · right
        have hs : pollStep inp s = exitLoop l s := by simp [pollStep, hth, hr]
        rw [hs, exitLoop_released]
        simp [exitLoop, pendingRelease, hth]
    · have hs : pollStep inp s = classifyStep inp l rs rv s := by simp [pollStep, hth]
      rw [hs]
      rcases classifyStep_released inp l rs rv s with ⟨⟨rs1, h1⟩, h2⟩ | ⟨h1, h2⟩
      · left
        refine ⟨h2, ?_⟩
        simp [pendingRelease, h1, hth]
      · right
        refine ⟨h1, ?_⟩
        rw [h2]
        simp [pendingRelease, hth]
  · left; simp [pollStep, hth]

theorem pendingRelease_idle (s : World) (h : ∀ pc, s.g_pollThread ≠ PollThread.running pc) :
    pendingRelease s = [] := by
  unfold pendingRelease
  split <;> first | rfl | exact absurd ‹_› (h _)

theorem pollSteps_released (inps : List PollInput) (s : World) :
    (released (pollSteps inps s).trace = released s.trace
        ∧ pendingRelease (pollSteps inps s) = pendingRelease s)
    ∨ ((pollSteps inps s).g_pollThread = PollThread.finished
        ∧ released (pollSteps inps s).trace = released s.trace ++ pendingRelease s) := by
  induction inps generalizing s with
  | nil => exact Or.inl ⟨rfl, rfl⟩
  | cons i is ih =>
    rw [pollSteps]
    rcases pollStep_released i s with ⟨h1, h2⟩ | ⟨h1, h2⟩
    · rcases ih (pollStep i s) with ⟨h3, h4⟩ | ⟨h3, h4⟩
      · exact Or.inl ⟨h3.trans h1, h4.trans h2⟩
      · exact Or.inr ⟨h3, by rw [h4, h1, h2]⟩
    · have hid := pollSteps_idle is (pollStep i s)
        (by intro pc; rw [h1]; exact fun h => PollThread.noConfusion h)
      rw [hid]
      exact Or.inr ⟨h1, h2⟩

theorem runPollThread_released (n : Nat) (inp : PollInput) (s : World) :
    (released (runPollThread n inp s).trace = released s.trace
        ∧ pendingRelease (runPollThread n inp s) = pendingRelease s)
    ∨ ((runPollThread n inp s).g_pollThread = PollThread.finished
        ∧ released (runPollThread n inp s).trace = released s.trace ++ pendingRelease s) := by
  induction n generalizing s with
  | zero => exact Or.inl ⟨rfl, rfl⟩
  | succ k ih =>
    rcases hth : s.g_pollThread with _ | pc | _
    · rw [runPollThread_idle _ inp s (by intro pc; rw [hth]; exact fun h => PollThread.noConfusion h)]
      exact Or.inl ⟨rfl, rfl⟩
    · rw [runPollThread_succ k inp s pc hth]
      rcases pollStep_released inp s with ⟨h1, h2⟩ | ⟨h1, h2⟩
      · rcases ih (pollStep inp s) with ⟨h3, h4⟩ | ⟨h3, h4⟩
        · exact Or.inl ⟨h3.trans h1, h4.trans h2⟩
        · exact Or.inr ⟨h3, by rw [h4, h1, h2]⟩
      · rw [runPollThread_idle k inp (pollStep inp s)
          (by intro pc; rw [h1]; exact fun h => PollThread.noConfusion h)]
        exact Or.inr ⟨h1, h2⟩
    · rw [runPollThread_idle _ inp s (by intro pc; rw [hth]; exact fun h => PollThread.noConfusion h)]
      exact Or.inl ⟨rfl, rfl⟩

/-- A completed join has let the thread make exactly the releases it owed. -/
theorem joinPollThread_released (inp : PollInput) (s : World)
    (hj : (joinPollThread inp s).g_pollThread = PollThread.notJoinable) :
    released (joinPollThread inp s).trace = released s.trace ++ pendingRelease s := by
  unfold joinPollThread at hj ⊢
  rcases hth : (runPollThread 3 inp s).g_pollThread with _ | pc | _
  · simp only [hth] at hj ⊢
    rcases runPollThread_released 3 inp s with ⟨h1, h2⟩ | ⟨h1, _⟩
    · have h0 := pendingRelease_idle (runPollThread 3 inp s)
        (by intro pc; rw [hth]; exact fun h => PollThread.noConfusion h)
      rw [h1, ← h2, h0, List.append_nil]
    · rw [hth] at h1; exact PollThread.noConfusion h1
  · simp only [hth] at hj
    exact PollThread.noConfusion hj
  · simp only [hth]
    rcases runPollThread_released 3 inp s with ⟨h1, h2⟩ | ⟨_, h2⟩
    · have h0 := pendingRelease_idle (runPollThread 3 inp s)
        (by intro pc; rw [hth]; exact fun h => PollThread.noConfusion h)
      simp [released_append, released, h1, ← h2, h0]
    · simp [released_append, released, h2]

/-- A stop made while the flag is true lets the thread make exactly the
releases it owed; cancel, join and the reset of the record release nothing. -/
theorem StopListening_released (join : PollInput) (s : World) (hr : s.g_running = true) :
    released (StopListening join s).1.trace = released s.trace ++ pendingRelease s := by
  unfold StopListening
  simp only [hr, Bool.not_true, Bool.false_eq_true, if_false]
  rcases hth : s.g_pollThread with _ | pc | _
  · have h0 := pendingRelease_idle s
      (by intro pc; rw [hth]; exact fun h => PollThread.noConfusion h)
    rw [h0]
    split_ifs <;> simp [hth, released_append, released]
  all_goals
    have hjoin : ∀ w : World, w.g_running = false → w.g_pollThread = s.g_pollThread →
        w.g_activeListener = s.g_activeListener → released w.trace = released s.trace →
        released (joinPollThread join w).trace = released s.trace ++ pendingRelease s := by
      intro w hw hwt hwa hwr
      have hne : w.g_pollThread ≠ PollThread.notJoinable := by
        rw [hwt, hth]; exact fun h => PollThread.noConfusion h
      have hp : pendingRelease w = pendingRelease s := by
        simp [pendingRelease, hwt, hwa]
      rw [joinPollThread_released join w (joinPollThread_joined join w hw hne).1, hwr, hp]
    split_ifs
    · exact hjoin _ rfl hth.symm rfl (by simp [released_append, released])
    · exact hjoin _ rfl hth.symm rfl rfl


/-- A successful start leaves the new record in place, with non-empty channels,
and a freshly created thread. -/
theorem StartListening_ok_listener (s : World) (info : List JsValue) (env : StartEnv)
    (hok : (StartListening info env s).2 = JsResult.value ()) :
    (∃ name, (StartListening info env s).1.g_activeListener
        = some ⟨name, env.tsfnUid, env.tsfnError⟩)
    ∧ (StartListening info env s).1.g_pollThread = PollThread.running PollPc.entry
    ∧ env.tsfnUid ≠ 0 ∧ env.tsfnError ≠ 0 := by
  revert hok
  unfold StartListening
  split
  · dsimp only
    by_cases h1 : (EnsureContext true env.establish s).2.1 = true
    · by_cases h2 : (EnsureContext true env.establish s).1.g_running = true
      · simp [h1, h2]
      · by_cases h3 : env.tsfnUid = 0 ∨ env.tsfnError = 0
        · simp [h1, h2, h3]
        · cases hsp : env.spawnError with
          | none =>
            intro _
            simp only [h1, h2, h3, hsp, Bool.not_true, Bool.false_eq_true, if_false]
            push_neg at h3
            exact ⟨⟨_, rfl⟩, trivial, h3.1, h3.2⟩
          | some what => simp [h1, h2, h3, hsp]
    · simp [h1]
  · simp


/-- Claim C15: for every listener that is started (a successful startListening
that created the channels `u` and `e`), as long as only its thread runs no
release is recorded while the thread is running, and once the thread has left
its loop and returned, on whatever exit path, exactly the releases `u`, `e` are
recorded, once each; a stopListening made while the flag is true returns with
exactly these two releases recorded, made by the joined thread; and
stopListening records no release when the thread is not running: cancel, join
and the reset of the record release nothing. -/
theorem C15_channels_released_once (s0 : World) (info : List JsValue) (env : StartEnv)
    (hstart : (StartListening info env s0).2 = JsResult.value ()) :
    pendingRelease (StartListening info env s0).1 = [env.tsfnUid, env.tsfnError]
    ∧ (∀ inps : List PollInput,
        ((∃ pc, (pollSteps inps (StartListening info env s0).1).g_pollThread
            = PollThread.running pc) →
          released (pollSteps inps (StartListening info env s0).1).trace
            = released (StartListening info env s0).1.trace)
        ∧ ((pollSteps inps (StartListening info env s0).1).g_pollThread = PollThread.finished →
          released (pollSteps inps (StartListening info env s0).1).trace
            = released (StartListening info env s0).1.trace ++ [env.tsfnUid, env.tsfnError])
        ∧ (pollSteps inps (StartListening info env s0).1).g_pollThread
            ≠ PollThread.notJoinable)
    ∧ (∀ (inps : List PollInput) (join : PollInput),
        (pollSteps inps (StartListening info env s0).1).g_running = true →
        released (StopListening join (pollSteps inps (StartListening info env s0).1)).1.trace
          = released (StartListening info env s0).1.trace ++ [env.tsfnUid, env.tsfnError])
    ∧ (∀ (w : World) (join : PollInput), (∀ pc, w.g_pollThread ≠ PollThread.running pc) →
        released (StopListening join w).1.trace = released w.trace) := by
  obtain ⟨⟨name, hal⟩, hth, hu, he⟩ := StartListening_ok_listener s0 info env hstart
  have hp : pendingRelease (StartListening info env s0).1 = [env.tsfnUid, env.tsfnError] := by
    simp [pendingRelease, hth, hal, hu, he, owed]
  have hsteps : ∀ inps : List PollInput,
      (released (pollSteps inps (StartListening info env s0).1).trace
          = released (StartListening info env s0).1.trace
        ∧ pendingRelease (pollSteps inps (StartListening info env s0).1)
          = [env.tsfnUid, env.tsfnError])
      ∨ ((pollSteps inps (StartListening info env s0).1).g_pollThread = PollThread.finished
        ∧ released (pollSteps inps (StartListening info env s0).1).trace
          = released (StartListening info env s0).1.trace ++ [env.tsfnUid, env.tsfnError]) := by
    intro inps
    have h := pollSteps_released inps (StartListening info env s0).1
    rw [hp] at h
    exact h
  refine ⟨hp, ?_, ?_, ?_⟩
  · intro inps
    rcases hsteps inps with ⟨h1, h2⟩ | ⟨h1, h2⟩
    · have hrun : ∃ pc, (pollSteps inps (StartListening info env s0).1).g_pollThread
          = PollThread.running pc := by
        by_contra hn
        push_neg at hn
        rw [pendingRelease_idle _ hn] at h2
        exact List.noConfusion h2
      obtain ⟨pc, hpc⟩ := hrun
      refine ⟨fun _ => h1, ?_, ?_⟩
      · intro hf; rw [hpc] at hf; exact PollThread.noConfusion hf
      · rw [hpc]; exact fun h => PollThread.noConfusion h
    · refine ⟨?_, fun _ => h2, ?_⟩
      · rintro ⟨pc, hpc⟩; rw [h1] at hpc; exact PollThread.noConfusion hpc
      · rw [h1]; exact fun h => PollThread.noConfusion h
  · intro inps join hr
    rw [StopListening_released join _ hr]
    rcases hsteps inps with ⟨h1, h2⟩ | ⟨h1, h2⟩
    · rw [h1, h2]
    · rw [h2, pendingRelease_idle _ (by intro pc; rw [h1]; exact fun h => PollThread.noConfusion h),
        List.append_nil]
  · intro w join hw
    by_cases hr : w.g_running = true
    · rw [StopListening_released join w hr, pendingRelease_idle w hw, List.append_nil]
    · have hf : w.g_running = false := by simpa using hr
      simp [StopListening, hf]

set_option maxRecDepth 100000 in
/-- Witness of C15 on the listener of `listeningWorld`, stopped while its
thread is in its first wait. -/
theorem C15_channels_released_once_witness :
    released (StopListening (waitReturns SCARD_E_CANCELLED)
        (pollSteps [waitReturns SCARD_E_TIMEOUT, waitReturns SCARD_E_TIMEOUT]
          (StartListening (startArgs "ACS ACR122U") (startEnv 1 2) idleWorld).1)).1.trace
      = released (StartListening (startArgs "ACS ACR122U") (startEnv 1 2) idleWorld).1.trace
          ++ [(startEnv 1 2).tsfnUid, (startEnv 1 2).tsfnError] :=
  (C15_channels_released_once idleWorld (startArgs "ACS ACR122U") (startEnv 1 2)
    (by decide)).2.2.1 _ (waitReturns SCARD_E_CANCELLED) (by decide)

/-- Claim C16: the selection of the framing descriptor is total and never
fails: `GetPci` returns the T0 descriptor for T0, the T1 descriptor for T1 and
the T1 descriptor for every other protocol value, never a null descriptor.
Hence the protocol-mismatch branches are not taken: after a successful connect
the transmit worker always goes on to the transmit (its status is then the
transmit's status) and the polling loop always sends the read-UID command. -/
theorem C16_pci_selection_total (est : EstablishResult) (c : ConnectResult) (t : TransmitResult)
    (s : World) (readerName : String) (apdu : List SCardByte) (l : ListenerInfo) :
    GetPci SCARD_PROTOCOL_T0 = some Pci.T0
    ∧ GetPci SCARD_PROTOCOL_T1 = some Pci.T1
    ∧ (∀ protocol, protocol ≠ SCARD_PROTOCOL_T0 → protocol ≠ SCARD_PROTOCOL_T1 →
        GetPci protocol = some Pci.T1)
    ∧ (∀ protocol, GetPci protocol ≠ none)
    ∧ ((EnsureContext false est s).2.1 = true → c.rv = SCARD_S_SUCCESS →
        (∃ pci, GetPci c.dwActiveProtocol = some pci
          ∧ Event.transmit c.hCard pci apdu ∈ (transmitRun est c t s readerName apdu).1.trace)
        ∧ (transmitRun est c t s readerName apdu).2.lastRv = t.rv)
    ∧ (c.rv = SCARD_S_SUCCESS →
        ∃ pci, GetPci c.dwActiveProtocol = some pci
          ∧ Event.transmit c.hCard pci cmd_get_uid ∈ (readCard s.g_context l c t).2) := by
  have hp := GetPci_eq c.dwActiveProtocol
  refine ⟨rfl, rfl, ?_, ?_, ?_, ?_⟩
  · intro protocol h0 h1
    simp [GetPci, h0, h1]
  · intro protocol
    rw [GetPci_eq]
    exact fun h => Option.noConfusion h
  · intro hctx hc
    refine ⟨⟨_, hp, ?_⟩, ?_⟩
    · by_cases ht : t.rv = SCARD_S_SUCCESS
      · simp [transmitRun, TransmitWorker.Execute, TransmitWorker.create, hctx, hc, hp, ht]
      · simp [transmitRun, TransmitWorker.Execute, TransmitWorker.create, hctx, hc, hp, ht]
    · by_cases ht : t.rv = SCARD_S_SUCCESS
      · simp [transmitRun, TransmitWorker.Execute, TransmitWorker.create, hctx, hc, hp, ht,
          TransmitWorker.OnWorkComplete, TransmitWorker.OnOK]
      · have hl : ("APDU transmit/receive failed" : String).length ≠ 0 := by decide
        simp [transmitRun, TransmitWorker.Execute, TransmitWorker.create, hctx, hc, hp, ht,
          TransmitWorker.OnWorkComplete, TransmitWorker.OnError, hl]
  · intro hc
    have hcases := readCard_cases s.g_context l c t
    refine ⟨_, hp, ?_⟩
    by_cases ht : t.rv = SCARD_S_SUCCESS
    · by_cases h2 : 2 ≤ t.recvLength
      · rw [hcases.2.2.2 hc ht h2]; simp
      · rw [hcases.2.2.1 hc ht (by omega)]; simp
    · rw [hcases.2.1 hc ht]; simp

set_option maxRecDepth 100000 in
/-- Witness of C16: a connect that negotiates the unknown protocol value `4`
is followed by a transmit with the T1 descriptor. -/
theorem C16_pci_selection_total_witness :
    GetPci 4 = some Pci.T1
    ∧ ∃ pci, GetPci 4 = some pci
        ∧ Event.transmit 42 pci cmd_get_uid
          ∈ (readCard idleWorld.g_context sampleListener ⟨SCARD_S_SUCCESS, 42, 4⟩
              ⟨SCARD_S_SUCCESS, 2, [0x90, 0x00]⟩).2 :=
  ⟨(C16_pci_selection_total ⟨SCARD_S_SUCCESS, 7⟩ ⟨SCARD_S_SUCCESS, 42, 4⟩
      ⟨SCARD_S_SUCCESS, 2, [0x90, 0x00]⟩ idleWorld "ACS ACR122U" [] sampleListener).2.2.1 4
      (by decide) (by decide),
    (C16_pci_selection_total ⟨SCARD_S_SUCCESS, 7⟩ ⟨SCARD_S_SUCCESS, 42, 4⟩
      ⟨SCARD_S_SUCCESS, 2, [0x90, 0x00]⟩ idleWorld "ACS ACR122U" [] sampleListener).2.2.2.2.2
      rfl⟩

end PcscAddon
